import Mathlib

/-!
# smartAlert: temperature alarm daemon

A shallow embedding of `src/ds1820.cpp` and `src/mainwindow.cpp`.

Conventions of the embedding

* The Qt classes that the source uses (`QString`, `QTimer`, `QDateTime`, `QDir`, `QFile`)
  and libcurl are not part of the repository; they are modelled from their documentation,
  as far as the source uses them.
* `QString` is a list of characters; `indexOf`, `contains` and `mid` follow the Qt
  functions of the same name (first occurrence, `-1` when absent). `toDouble` accepts the
  decimal notation (sign, digits, fraction, exponent) between optional white space and
  yields `0` for any other text.
* `double` is modelled by the exact rationals `ℚ`. The comparisons of the source are exact
  on finite doubles. The conversion of a numeral and the division by `1000.0` are taken
  without rounding: they agree with the source exactly when the numeral's value and the
  quotient are binary64 numbers (`IsBinary64`); where they are not, the source rounds to the
  nearest double, and it has infinities and NaN, which the model does not describe.
* Everything the daemon reads from its environment during a callback (the sensor file,
  the clock, the result of the mail transfer, whether the log can be opened) is an explicit
  argument of the callback.
* Effects on the outside world are recorded in the state: `sent` lists the calls of
  `sendMail`, `fs` is the file system that holds the log files, `syslog` the lines handed
  to the system log.
* The release build is modelled (`QT_DEBUG` undefined).
-/

namespace SmartAlert

/-! ## Strings -/

/-- A `QString` of the source: a sequence of characters. -/
abbrev QString := List Char

/-- Search of `sub` in the remaining text, `i` being the index of its first character. -/
def QString.indexOfFrom (sub : QString) : QString → Nat → Int
  | [], i => if sub.isEmpty then (i : Int) else -1
  | c :: cs, i =>
    if sub.isPrefixOf (c :: cs) then (i : Int) else QString.indexOfFrom sub cs (i + 1)

/-- The function `QString::indexOf(str)`: index of the first occurrence of `sub` in `s`,
or `-1` when there is none. -/
def QString.indexOf (s sub : QString) : Int := QString.indexOfFrom sub s 0

/-- The function `QString::contains(str)`, which Qt defines as `indexOf(str) != -1`. -/
def QString.contains (s sub : QString) : Bool := decide (QString.indexOf s sub ≠ -1)

/-- The function `QString::mid(position)`: the text from `position` to the end. -/
def QString.mid (s : QString) (position : Int) : QString := s.drop position.toNat

/-- The ASCII part of `QChar::isSpace`: space, tab, line feed, vertical tab, form feed,
carriage return. -/
def isSpace (c : Char) : Bool := c = ' ' || (9 ≤ c.toNat && c.toNat ≤ 13)

/-- The function `QString::trimmed`: white space removed from both ends. -/
def QString.trimmed (s : QString) : QString :=
  ((s.dropWhile isSpace).reverse.dropWhile isSpace).reverse

/-- Value of a run of decimal digits, most significant first. -/
def digitsValue (ds : List Char) : Nat :=
  ds.foldl (fun acc c => 10 * acc + (c.toNat - 48)) 0

/-- A parsed decimal number: `(-1)^neg * mantissa * 10^exponent`. -/
structure Decimal where
  neg : Bool
  mantissa : Nat
  exponent : Int
  deriving DecidableEq, Repr

/-- An optional sign in front of a number: whether it is `-`, and the rest of the text. -/
def takeSign : QString → Bool × QString
  | '-' :: r => (true, r)
  | '+' :: r => (false, r)
  | r => (false, r)

/-- An optional fraction `.ddd`: its digits and the rest of the text. -/
def takeFraction : QString → List Char × QString
  | '.' :: r => (r.takeWhile Char.isDigit, r.dropWhile Char.isDigit)
  | r => ([], r)

/-- An optional exponent `e±ddd` that must reach the end of the text. -/
def takeExponent : QString → Option Int
  | [] => some 0
  | c :: r =>
    if c = 'e' || c = 'E' then
      let se := takeSign r
      if se.2.isEmpty || !(se.2.all Char.isDigit) then none
      else some (if se.1 then -(digitsValue se.2 : Int) else (digitsValue se.2 : Int))
    else none

/-- The number syntax accepted by `QString::toDouble` (C locale): surrounding white space
is ignored, then an optional sign, digits with an optional fraction, an optional exponent,
and nothing else. `none` is a failed conversion. -/
def parseDecimal (s : QString) : Option Decimal :=
  let sn := takeSign (QString.trimmed s)
  let ip := sn.2.takeWhile Char.isDigit
  let fr := takeFraction (sn.2.dropWhile Char.isDigit)
  if ip.isEmpty && fr.1.isEmpty then none
  else match takeExponent fr.2 with
    | none => none
    | some e => some ⟨sn.1, digitsValue (ip ++ fr.1), e - fr.1.length⟩

/-- The rational denoted by a parsed decimal. -/
def Decimal.toRat (d : Decimal) : ℚ :=
  (if d.neg then -1 else 1) * (d.mantissa : ℚ) * (10 : ℚ) ^ d.exponent

/-- The function `QString::toDouble()`: the number written in the text, `0.0` when the
conversion fails. The value is exact; the source returns the nearest double, which is the
same number whenever the value is a binary64 number (`IsBinary64`). The texts `inf` and
`nan`, which Qt converts to an infinity and to NaN, count as failed conversions here. -/
def QString.toDouble (s : QString) : ℚ :=
  match parseDecimal s with
  | some d => d.toRat
  | none => 0

/-! ## The sensor: `ds1820.cpp` -/

/-- The members of class `DS1820`. -/
structure DS1820 where
  sSensorFilePath : String
  tMin : ℚ
  tMax : ℚ
  bOnAlarm : Bool
  sAlarmString : String
  deriving DecidableEq

/-- The constructor `DS1820::DS1820()`. -/
def DS1820.new : DS1820 :=
  { sSensorFilePath := ""
    tMin := 0
    tMax := 30
    bOnAlarm := false
    sAlarmString := "No Alarm" }

/-- The method `DS1820::setLimits`. -/
def DS1820.setLimits (d : DS1820) (minTemperature maxTemperature : ℚ) : DS1820 :=
  if minTemperature < maxTemperature then
    { d with tMin := minTemperature, tMax := maxTemperature }
  else d

/-- Lines 70-82 of `DS1820::readTemperature`: the local `temperature` after the sensor
file has been read. `file` is `none` when `SensorFile.open` fails and the text returned by
`readAll` otherwise. -/
def DS1820.readSample (file : Option QString) : ℚ :=
  let temperature : ℚ := -999.9
  match file with
  | none => temperature
  | some sTdata =>
    if QString.contains sTdata "YES".toList then
      let iPos := QString.indexOf sTdata "t=".toList
      if iPos > 0 then (QString.mid sTdata (iPos + 2)).toDouble / 1000
      else temperature
    else temperature

/-- Lines 83-94 of `DS1820::readTemperature`: the comparison of `temperature` with the
band. -/
def DS1820.classify (d : DS1820) (temperature : ℚ) : DS1820 :=
  if temperature < d.tMin then
    { d with bOnAlarm := true, sAlarmString := "Temperature Lower than Minimum" }
  else if temperature > d.tMax then
    { d with bOnAlarm := true, sAlarmString := "Temperature Greater than Maximum" }
  else
    { d with bOnAlarm := false, sAlarmString := "No Alarm" }

/-- The method `DS1820::readTemperature`: the sensor object afterwards and the value
returned. -/
def DS1820.readTemperature (d : DS1820) (file : Option QString) : DS1820 × ℚ :=
  let temperature := DS1820.readSample file
  (d.classify temperature, temperature)

/-- The method `DS1820::isOnAlarm`. -/
def DS1820.isOnAlarm (d : DS1820) : Bool := d.bOnAlarm

/-- The loop of `DS1820::isConnected` over the device directories that match `10-*` or
`28-*`: each entry is the path of its `w1_slave` file and the text read from it (`none`
when the file cannot be opened). -/
def DS1820.scanDevices (d : DS1820) : List (String × Option QString) → DS1820 × Bool
  | [] => (d, false)
  | (path, content) :: rest =>
    let d1 := { d with sSensorFilePath := path }
    match content with
    | none => DS1820.scanDevices d1 rest
    | some sTdata =>
      if QString.contains sTdata "YES".toList then (d1, true)
      else DS1820.scanDevices d1 rest

/-- The method `DS1820::isConnected`. `devices` is `none` when `/sys/bus/w1/devices/`
does not exist, and the matching entries otherwise. -/
def DS1820.isConnected (d : DS1820) (devices : Option (List (String × Option QString))) :
    DS1820 × Bool :=
  match devices with
  | none => (d, false)
  | some subDirs => d.scanDevices subDirs

/-! ## Collaborators of the daemon: clock, timers, log files, mail transfer -/

/-- A `QDateTime`: day number and second of the day; a default-constructed value is not
valid. -/
structure QDateTime where
  valid : Bool
  day : Int
  sec : Int
  deriving DecidableEq

/-- A default-constructed `QDateTime`. -/
def QDateTime.null : QDateTime := ⟨false, 0, 0⟩

/-- The function `QDateTime::daysTo`: number of midnights between the two dates, `0` when
one of them is not valid. -/
def QDateTime.daysTo (a b : QDateTime) : Int :=
  if a.valid && b.valid then b.day - a.day else 0

/-- The function `QDateTime::secsTo`, `0` when one of the dates is not valid. -/
def QDateTime.secsTo (a b : QDateTime) : Int :=
  if a.valid && b.valid then (b.day - a.day) * 86400 + (b.sec - a.sec) else 0

/-- A `QTimer`, as far as `start(msec)` and `stop()` go. -/
structure QTimer where
  active : Bool
  interval : Int
  deriving DecidableEq

/-- A default-constructed `QTimer`. -/
def QTimer.new : QTimer := ⟨false, 0⟩

/-- The function `QTimer::start(msec)`. -/
def QTimer.start (_t : QTimer) (msec : Int) : QTimer := ⟨true, msec⟩

/-- The function `QTimer::stop()`. -/
def QTimer.stop (t : QTimer) : QTimer := { t with active := false }

/-- A line handed to `logMessage`. The time stamp that the source puts in front of every
line is left out; numbers formatted into the text by `QString::arg` are kept beside the
template. -/
inductive LogEntry where
  | text (msg : String)
  | formatted (template : String) (numbers : List ℚ)
  deriving DecidableEq

/-- What a path of the file system holds: a regular file (its lines) or a directory. -/
inductive Node where
  | file (content : List LogEntry)
  | dir
  deriving DecidableEq

/-- The file system: what each path holds, if anything. -/
abbrev FileSystem := String → Option Node

/-- Replace what a path holds. -/
def FileSystem.set (fs : FileSystem) (path : String) (n : Option Node) : FileSystem :=
  fun p => if p = path then n else fs p

/-- The test `QFileInfo::exists() && QFileInfo::isFile()`. -/
def FileSystem.isFile (fs : FileSystem) (path : String) : Bool :=
  match fs path with
  | some (Node.file _) => true
  | _ => false

/-- The function `QDir::remove(fileName)`: removes a file; nothing happens when the path is
absent or is a directory. -/
def FileSystem.remove (fs : FileSystem) (path : String) : FileSystem :=
  if fs.isFile path then fs.set path none else fs

/-- The function `QDir::rename(oldName, newName)`: fails, changing nothing, when `oldName`
does not exist or `newName` already exists. -/
def FileSystem.rename (fs : FileSystem) (oldName newName : String) : FileSystem :=
  match fs oldName, fs newName with
  | some n, none => (fs.set oldName none).set newName (some n)
  | _, _ => fs

/-- A write of one line through an open `QFile`. -/
def FileSystem.appendLine (fs : FileSystem) (path : String) (line : LogEntry) : FileSystem :=
  match fs path with
  | some (Node.file c) => fs.set path (some (Node.file (c ++ [line])))
  | _ => fs

/-- A `QFile` object: its name and whether it is open. -/
structure QFile where
  fileName : String
  isOpen : Bool
  deriving DecidableEq

/-- The name `sLogFileName + QString("_%1.txt").arg(i)` of generation `i` of the log. -/
def generation (sLogFileName : String) (i : Nat) : String :=
  sLogFileName ++ "_" ++ toString i ++ ".txt"

/-- What one call of `sendMail` meets in libcurl: whether `curl_easy_init` returns a handle,
and the `CURLcode` that `curl_easy_perform` returns (`0` is `CURLE_OK`). -/
structure Curl where
  handle : Bool
  code : Nat
  deriving DecidableEq

/-- One call of `sendMail`: subject, message, and the result of the transfer made by that
call (`none` when no handle was obtained, so that no transfer took place). -/
structure Mail where
  subject : String
  message : String
  transfer : Option Nat
  deriving DecidableEq

/-- The settings store read by `restoreSettings`; `none` is a key without value. -/
structure Settings where
  username : Option String
  password : Option String
  mailServer : Option String
  toAddress : Option String
  ccAddress : Option String
  messageToSend : Option String
  alarmThreshold : Option ℚ

/-! ## The daemon: `mainwindow.cpp` -/

/-- The members of class `MainWindow` that the callbacks use, and the outside world they
act on (`fs`, `syslog`, `sent`). The payload text built for libcurl is not modelled. -/
structure MainWindow where
  res : Nat
  pLogFile : Option QFile
  sLogFileName : String
  updateTimer : QTimer
  updateInterval : Int
  resendTimer : QTimer
  resendInterval : Int
  startTime : QDateTime
  rotateLogTime : QDateTime
  gpioHostHandle : Int
  gpioSensorPin : Nat
  bOnAlarm : Bool
  bAlarmMessageSent : Bool
  dMaxTemperature : ℚ
  sUsername : String
  sPassword : String
  sMailServer : String
  sTo : String
  sCc : String
  sMessageText : String
  pTemperatureSensor : Option DS1820
  updateConnected : Bool
  fs : FileSystem
  syslog : List LogEntry
  sent : List Mail

/-- The method `MainWindow::logMessage`: the line goes to the log file when it is open, to
the system log otherwise. -/
def MainWindow.logMessage (w : MainWindow) (sMessage : LogEntry) : MainWindow :=
  match w.pLogFile with
  | some f =>
    if f.isOpen then { w with fs := w.fs.appendLine f.fileName sMessage }
    else { w with syslog := w.syslog ++ [sMessage] }
  | none => { w with syslog := w.syslog ++ [sMessage] }

/-- The loop `for(int i=4; i>0; i--) renamed.rename(<log>_(i-1).txt, <log>_i.txt)` of
`logRotate`, entered with the given value of `i`. -/
def shiftGenerations (sLogFileName : String) : Nat → FileSystem → FileSystem
  | 0, fs => fs
  | i + 1, fs =>
    shiftGenerations sLogFileName i
      (fs.rename (generation sLogFileName i) (generation sLogFileName (i + 1)))

/-- The method `MainWindow::logRotate`. `openOk` tells whether the file system lets the new
log be created; a path that is a directory can never be opened for writing. The text of
`errorString()` in the failure message is not modelled and stays as `%2`. -/
def MainWindow.logRotate (openOk : Bool) (w : MainWindow) (sLogFileName : String) :
    MainWindow × Bool :=
  let w1 : MainWindow :=
    if w.fs.isFile sLogFileName then
      let fs1 := w.fs.remove (sLogFileName ++ "_4.txt")
      let fs2 := shiftGenerations sLogFileName 4 fs1
      { w with pLogFile := none, fs := fs2.rename sLogFileName (sLogFileName ++ "_0.txt") }
    else w
  if openOk && w1.fs sLogFileName != some Node.dir then
    ({ w1 with pLogFile := some ⟨sLogFileName, true⟩,
               fs := w1.fs.set sLogFileName (some (Node.file [])) }, true)
  else
    let w2 := { w1 with pLogFile := some ⟨sLogFileName, false⟩ }
    let w3 := w2.logMessage (LogEntry.text ("Unable to open file " ++ sLogFileName ++ ": %2."))
    ({ w3 with pLogFile := none }, false)

/-- The method `MainWindow::restoreSettings`. -/
def MainWindow.restoreSettings (store : Settings) (w : MainWindow) : MainWindow :=
  let w1 := { w with
    sUsername := store.username.getD ""
    sPassword := store.password.getD ""
    sMailServer := store.mailServer.getD ""
    sTo := store.toAddress.getD ""
    sCc := store.ccAddress.getD ""
    sMessageText := store.messageToSend.getD ""
    dMaxTemperature := store.alarmThreshold.getD (QString.toDouble "28.0".toList) }
  let w2 := w1.logMessage (LogEntry.text "Settings Changed. New Values Are:")
  let w3 := w2.logMessage (LogEntry.text ("Username: " ++ w2.sUsername))
  let w4 := w3.logMessage (LogEntry.text ("Mail Server: " ++ w3.sMailServer))
  let w5 := w4.logMessage (LogEntry.text ("To: " ++ w4.sTo))
  let w6 := if w5.sCc ≠ "" then w5.logMessage (LogEntry.text ("Cc: " ++ w5.sCc)) else w5
  w6.logMessage (LogEntry.formatted "Threshold: %1" [w6.dMaxTemperature])

/-- The constructor `MainWindow::MainWindow`. `sLogDir` is the home directory reported by
`QStandardPaths`, `store` the settings, `fs` the file system found at start. -/
def MainWindow.new (sLogDir : String) (store : Settings) (fs : FileSystem) (openOk : Bool) :
    MainWindow :=
  let sLogDir1 := if sLogDir.endsWith "/" then sLogDir else sLogDir ++ "/"
  let w0 : MainWindow :=
    { res := 0
      pLogFile := none
      sLogFileName := sLogDir1 ++ "smartAlertLog.txt"
      updateTimer := QTimer.new
      updateInterval := 60 * 1000
      resendTimer := QTimer.new
      resendInterval := 30 * 60 * 1000
      startTime := QDateTime.null
      rotateLogTime := QDateTime.null
      gpioHostHandle := -1
      gpioSensorPin := 23
      bOnAlarm := false
      bAlarmMessageSent := false
      dMaxTemperature := 0
      sUsername := ""
      sPassword := ""
      sMailServer := ""
      sTo := ""
      sCc := ""
      sMessageText := ""
      pTemperatureSensor := none
      updateConnected := false
      fs := fs
      syslog := []
      sent := [] }
  (w0.logRotate openOk w0.sLogFileName).1.restoreSettings store

/-- The method `MainWindow::sendMail`. The call is recorded in `sent`; `res` is assigned
only when a handle was obtained, and the value returned is `res == CURLE_OK`. -/
def MainWindow.sendMail (c : Curl) (w : MainWindow) (sSubject sMessage : String) :
    MainWindow × Bool :=
  let w1 := { w with
    sent := w.sent ++ [⟨sSubject, sMessage, if c.handle then some c.code else none⟩] }
  let w2 :=
    if c.handle then
      let w3 := { w1 with res := c.code }
      if w3.res ≠ 0 then
        w3.logMessage (LogEntry.formatted "curl_easy_perform() failed: %1" [(w3.res : ℚ)])
      else w3
    else w1
  (w2, w2.res == 0)

/-- What `MainWindow::exec` meets at start: the results of the three pigpio calls, the
one-wire devices, the sensor file, the clock and libcurl. -/
structure ExecEnv where
  pigpioStart : Int
  setMode : Int
  setPullUpDown : Int
  devices : Option (List (String × Option QString))
  sensorFile : Option QString
  now : QDateTime
  curl : Curl

/-- Lines 87-105 of `MainWindow::exec`: the GPIO pin of the sensor is set up. -/
def MainWindow.initGpio (e : ExecEnv) (w : MainWindow) : MainWindow :=
  let w1 := { w with gpioHostHandle := e.pigpioStart }
  if w1.gpioHostHandle ≥ 0 then
    if e.setMode < 0 then
      { w1.logMessage (LogEntry.formatted "Unable to initialize GPIO%1 as Output"
          [(w1.gpioSensorPin : ℚ)]) with gpioHostHandle := -1 }
    else if e.setPullUpDown < 0 then
      { w1.logMessage (LogEntry.formatted "Unable to set GPIO%1 Pull-Up"
          [(w1.gpioSensorPin : ℚ)]) with gpioHostHandle := -1 }
    else w1
  else w1.logMessage (LogEntry.text "Unable to initialize the Pi GPIO.")

/-- Lines 107-121 of `MainWindow::exec`: the temperature sensor is looked for; when one is
found its band is set to `(0, dMaxTemperature)`, the temperature is read once and the update
timer is connected to `onTimeToUpdateStatus` (`updateConnected`). -/
def MainWindow.detectSensor (e : ExecEnv) (w : MainWindow) : MainWindow :=
  let found := DS1820.new.isConnected e.devices
  if !found.2 then
    { w.logMessage (LogEntry.text "No Temperature Sensor Found") with
      pTemperatureSensor := none }
  else
    let d1 := found.1.setLimits 0 w.dMaxTemperature
    let r := d1.readTemperature e.sensorFile
    let w1 := { w with pTemperatureSensor := some r.1 }
    { w1.logMessage (LogEntry.formatted "Temperature: %1, %2"
        [(w1.startTime.secsTo e.now : ℚ) / 3600, r.2]) with updateConnected := true }

/-- Lines 125-138 of `MainWindow::exec`: the start time is taken, the update timer is
started and the restart is announced by mail. -/
def MainWindow.announceStart (e : ExecEnv) (w : MainWindow) : MainWindow :=
  let w1 := { w with startTime := e.now, rotateLogTime := e.now }
  let w2 := { w1 with updateTimer := w1.updateTimer.start w1.updateInterval }
  let w3 := w2.logMessage (LogEntry.text "Smart Alert System Started")
  let r := w3.sendMail e.curl "Smart Alert System [INFO]"
    "Smart Alert System Has Been Restarted"
  if r.2 then r.1.logMessage (LogEntry.text "Smart Alert System [INFO]: Message Sent")
  else r.1.logMessage (LogEntry.text "Smart Alert System [INFO]: Unable to Send the Message")

/-- The method `MainWindow::exec`, up to the entry into the Qt event loop. -/
def MainWindow.exec (e : ExecEnv) (w : MainWindow) : MainWindow :=
  ((w.initGpio e).detectSensor e).announceStart e

/-- What one status tick meets: the clock, the sensor file, libcurl, and whether a new log
file can be created. -/
structure TickEnv where
  now : QDateTime
  sensorFile : Option QString
  curl : Curl
  openOk : Bool

/-- Lines 339-343 of `onTimeToUpdateStatus`: the log is rotated when more than 7 days
have passed since the last rotation. -/
def MainWindow.rotateIfDue (e : TickEnv) (w : MainWindow) : MainWindow :=
  if w.rotateLogTime.daysTo e.now > 7 then
    { (w.logRotate e.openOk w.sLogFileName).1 with rotateLogTime := e.now }
  else w

/-- Lines 344-349 of `onTimeToUpdateStatus`: when there is a sensor, the temperature is
read and logged, and the alarm flag of the sensor is or-ed into `bOnAlarm`. -/
def MainWindow.pollSensor (e : TickEnv) (w : MainWindow) : MainWindow :=
  match w.pTemperatureSensor with
  | some d =>
    let r := d.readTemperature e.sensorFile
    let w1 := { w with pTemperatureSensor := some r.1 }
    let w2 := w1.logMessage (LogEntry.formatted "Temperature: %1, %2"
      [(w1.startTime.secsTo e.now : ℚ) / 3600, r.2])
    { w2 with bOnAlarm := w2.bOnAlarm || r.1.isOnAlarm }
  | none => w

/-- Lines 350-363 of `onTimeToUpdateStatus`: the first alarm notification. -/
def MainWindow.firstAlert (e : TickEnv) (w : MainWindow) : MainWindow :=
  if w.bOnAlarm && !w.bAlarmMessageSent then
    let w1 := w.logMessage (LogEntry.text "TEMPERATURE ALARM !")
    let r := w1.sendMail e.curl "Smart Alert System [ALARM!]" w1.sMessageText
    if r.2 then
      let w2 := { r.1 with bAlarmMessageSent := true }
      let w3 := w2.logMessage (LogEntry.text "Smart Alert System [ALARM!]: Message Sent")
      { w3 with resendTimer := w3.resendTimer.start w3.resendInterval }
    else
      r.1.logMessage
        (LogEntry.text "PS Temperature Alarm System [ALARM!]: Unable to Send the Message")
  else w

/-- The slot `MainWindow::onTimeToUpdateStatus` (the status tick): `bOnAlarm` is cleared,
then the three blocks of the body run in sequence. -/
def MainWindow.onTimeToUpdateStatus (e : TickEnv) (w : MainWindow) : MainWindow :=
  (({ w with bOnAlarm := false }.rotateIfDue e).pollSensor e).firstAlert e

/-- The slot `MainWindow::onTimeToResendAlarm` (the resend tick). -/
def MainWindow.onTimeToResendAlarm (c : Curl) (w : MainWindow) : MainWindow :=
  if !w.bOnAlarm then
    let w1 := w.logMessage (LogEntry.text "Temperature Alarm Ceased")
    let r := w1.sendMail c "Smart Alert System [INFO!]" "Temperature Alarm Ceased"
    let w2 :=
      if r.2 then r.1.logMessage (LogEntry.text "Smart Alert System [INFO!]: Message Sent")
      else r.1.logMessage
        (LogEntry.text "Smart Alert System [INFO!]: Unable to Send the Message")
    let w3 := { w2 with resendTimer := w2.resendTimer.stop }
    { w3 with bAlarmMessageSent := false }
  else
    let w1 := w.logMessage (LogEntry.text "TEMPERATURE ALARM STILL ON!")
    let r := w1.sendMail c "Smart Alert System [ALARM!]" w1.sMessageText
    if r.2 then r.1.logMessage (LogEntry.text "Smart Alert System [ALARM!]: Message Sent")
    else r.1.logMessage
      (LogEntry.text "Smart Alert System [ALARM!]: Unable to Send the Message")

/-- A run of consecutive status ticks, one environment per tick. -/
def MainWindow.statusTicks (w : MainWindow) : List TickEnv → MainWindow
  | [] => w
  | e :: es => MainWindow.statusTicks (w.onTimeToUpdateStatus e) es

/-- The alarm notification sent by the status tick and by the resend tick. -/
def alarmMail (w : MainWindow) (c : Curl) : Mail :=
  ⟨"Smart Alert System [ALARM!]", w.sMessageText, if c.handle then some c.code else none⟩

/-- The notice sent by the resend tick when the alarm is over. -/
def ceasedMail (c : Curl) : Mail :=
  ⟨"Smart Alert System [INFO!]", "Temperature Alarm Ceased",
    if c.handle then some c.code else none⟩


/-! ## A concrete daemon, used to instantiate the theorems -/

/-- An empty settings store: every key takes its default. -/
def exampleSettings : Settings := ⟨none, none, none, none, none, none, none⟩

/-- A valid reading of 25 degrees, as the one-wire driver prints it. -/
def exampleBlob : QString :=
  "90 01 4b 46 7f ff 0c 10 1d : crc=1d YES\n90 01 4b 46 7f ff 0c 10 1d t=25000\n".toList

/-- A start with working GPIO, one sensor on the bus and a mail server that accepts. -/
def exampleExecEnv : ExecEnv :=
  { pigpioStart := 0
    setMode := 0
    setPullUpDown := 0
    devices := some [("/sys/bus/w1/devices/28-000005e2fdc3/w1_slave", some exampleBlob)]
    sensorFile := some exampleBlob
    now := ⟨true, 0, 0⟩
    curl := ⟨true, 0⟩ }

/-- The daemon as it enters the event loop: default settings (threshold 28, so band
`[0, 28]`), empty file system. -/
def exampleDaemon : MainWindow :=
  (MainWindow.new "/home/pi" exampleSettings (fun _ => none) true).exec exampleExecEnv

/-- A status tick that reads the sample `milli / 1000` and whose mail is accepted. -/
def exampleTick (milli : Int) : TickEnv :=
  { now := ⟨true, 0, 60⟩
    sensorFile := some ("crc=1d YES\n1d ".toList ++ "t=".toList ++ (toString milli).toList
      ++ "\n".toList)
    curl := ⟨true, 0⟩
    openOk := true }

/-- A status tick that reads the sample `milli / 1000` and whose mail transfer fails with
`CURLE_COULDNT_CONNECT` (7). -/
def exampleFailingTick (milli : Int) : TickEnv :=
  { exampleTick milli with curl := ⟨true, 7⟩ }

/-- The sensor object of `exampleDaemon`. -/
def exampleSensor : DS1820 :=
  (((DS1820.new.isConnected exampleExecEnv.devices).1.setLimits 0 28).readTemperature
    exampleExecEnv.sensorFile).1

/-- A status tick on which the sensor file cannot be opened. -/
def exampleDeadTick : TickEnv :=
  { exampleTick 0 with sensorFile := none }

/-- The samples 25, 30, 31, 27, 25, one per status tick. -/
def exampleRun : List TickEnv :=
  [exampleTick 25000, exampleTick 30000, exampleTick 31000, exampleTick 27000,
    exampleTick 25000]

/-- A home directory that holds the current log and the generations 0 and 4. -/
def exampleFs : FileSystem := fun p =>
  if p = "/home/pi/smartAlertLog.txt" then some (Node.file [LogEntry.text "current"])
  else if p = "/home/pi/smartAlertLog.txt_0.txt" then some (Node.file [LogEntry.text "newest"])
  else if p = "/home/pi/smartAlertLog.txt_4.txt" then some (Node.file [LogEntry.text "oldest"])
  else none

/-- A status tick that reads the sample `milli / 1000` while `curl_easy_init` returns no
handle. -/
def exampleNoHandleTick (milli : Int) : TickEnv :=
  { exampleTick milli with curl := ⟨false, 0⟩ }

/-! ## Auxiliary notions of the proofs -/

/-- The text `l` is the decimal numeral of `n`: a non-empty run of digits of value `n`. -/
def IsNumeral (l : List Char) (n : Nat) : Prop :=
  l ≠ [] ∧ (∀ c ∈ l, c.isDigit = true ∧ isSpace c = false ∧ c ≠ '-' ∧ c ≠ '+') ∧
    digitsValue l = n

/-- The value returned by `sendMail` when it is called with member `res` holding `res`. -/
def sendMailResult (res : Nat) (c : Curl) : Bool := (if c.handle then c.code else res) == 0

/-- The sample that the status tick `e` reads lies outside the band of the sensor `d`. -/
abbrev TickEnv.breaches (e : TickEnv) (d : DS1820) : Prop :=
  DS1820.readSample e.sensorFile < d.tMin ∨ DS1820.readSample e.sensorFile > d.tMax

/-- The effect of a rename whose destination is free: `newName` takes what `oldName` held,
and `oldName` is free afterwards. -/
def FileSystem.move (fs : FileSystem) (oldName newName : String) : FileSystem :=
  fun p => if p = newName then fs oldName else if p = oldName then none else fs p

/-- The file system during `logRotate`, after the removal of `<log>_4.txt` and the first
`n` renames of the loop (`n = 0..4`): the next rename has generation `4 - n` as its
destination (for `n = 4` it is the rename of the current log to generation 0). -/
def rotationPrefix (fs : FileSystem) (sLogFileName : String) : Nat → FileSystem
  | 0 => fs.remove (sLogFileName ++ "_4.txt")
  | n + 1 =>
    (rotationPrefix fs sLogFileName n).rename (generation sLogFileName (3 - n))
      (generation sLogFileName (4 - n))

/-- The chain of moves that `rotationPrefix` amounts to when every destination is free. -/
def rotationMoves (fs : FileSystem) (sLogFileName : String) : Nat → FileSystem
  | 0 => fs.set (generation sLogFileName 4) none
  | n + 1 =>
    (rotationMoves fs sLogFileName n).move (generation sLogFileName (3 - n))
      (generation sLogFileName (4 - n))

/-- The rational `q` is a finite binary64 number (an IEEE 754 double): `m * 2 ^ e` with
`|m| < 2 ^ 53` and `-1074 ≤ e ≤ 971`. -/
def IsBinary64 (q : ℚ) : Prop :=
  ∃ m e : Int, m.natAbs < 2 ^ 53 ∧ -1074 ≤ e ∧ e ≤ 971 ∧ q = (m : ℚ) * (2 : ℚ) ^ e

/-! # Theorems -/

/-! ## Decimal numerals -/

theorem digitChar_spec (k : Nat) (h : k < 10) :
    (Nat.digitChar k).isDigit = true ∧ (Nat.digitChar k).toNat - 48 = k ∧
      isSpace (Nat.digitChar k) = false ∧ Nat.digitChar k ≠ '-' ∧ Nat.digitChar k ≠ '+' := by
  interval_cases k <;> decide

theorem digitsValue_append (l : List Char) (c : Char) :
    digitsValue (l ++ [c]) = 10 * digitsValue l + (c.toNat - 48) := by
  simp [digitsValue, List.foldl_append]

theorem toDigitsCore_spec : ∀ (fuel n : Nat) (acc : List Char), n < fuel →
    ∃ l, Nat.toDigitsCore 10 fuel n acc = l ++ acc ∧ IsNumeral l n := by
  intro fuel
  induction fuel with
  | zero => intro n acc h; omega
  | succ f ih =>
    intro n acc h
    have hd := digitChar_spec (n % 10) (Nat.mod_lt _ (by decide))
    unfold Nat.toDigitsCore
    by_cases h0 : n / 10 = 0
    · refine ⟨[Nat.digitChar (n % 10)], by simp [h0], by simp, ?_, ?_⟩
      · intro c hc
        simp at hc
        subst hc
        exact ⟨hd.1, hd.2.2⟩
      · have hn : n % 10 = n := Nat.mod_eq_of_lt (by omega)
        have hv : digitsValue [Nat.digitChar (n % 10)] = (Nat.digitChar (n % 10)).toNat - 48 := by
          simp [digitsValue]
        rw [hv, hd.2.1, hn]
    · have hlt : n / 10 < f := by omega
      obtain ⟨l, hl, hne, hall, hval⟩ := ih (n / 10) (Nat.digitChar (n % 10) :: acc) hlt
      refine ⟨l ++ [Nat.digitChar (n % 10)], by simp [h0, hl], by simp, ?_, ?_⟩
      · intro c hc
        rcases List.mem_append.1 hc with hc | hc
        · exact hall c hc
        · simp at hc
          subst hc
          exact ⟨hd.1, hd.2.2⟩
      · rw [digitsValue_append, hval, hd.2.1]
        omega

theorem toString_nat_numeral (n : Nat) : IsNumeral (toString n).toList n := by
  obtain ⟨l, hl, h⟩ := toDigitsCore_spec (n + 1) n [] (by omega)
  have : (toString n).toList = l := by
    show (Nat.repr n).toList = l
    simp [Nat.repr, Nat.toDigits, hl, List.asString]
  rw [this]
  exact h

theorem dropWhile_all {p : Char → Bool} : ∀ (ws r : List Char), (∀ c ∈ ws, p c = true) →
    (ws ++ r).dropWhile p = r.dropWhile p := by
  intro ws
  induction ws with
  | nil => intro r _; rfl
  | cons a t ih =>
    intro r h
    have ha : p a = true := h a (by simp)
    simp only [List.cons_append, List.dropWhile_cons, ha, if_true]
    exact ih r (fun c hc => h c (by simp [hc]))

theorem dropWhile_head {p : Char → Bool} : ∀ (l : List Char), l ≠ [] →
    (∀ c ∈ l, p c = false) → l.dropWhile p = l := by
  intro l hne h
  cases l with
  | nil => exact absurd rfl hne
  | cons a t => simp [List.dropWhile_cons, h a (by simp)]

theorem trimmed_token (l ws : List Char) (hne : l ≠ []) (hl : ∀ c ∈ l, isSpace c = false)
    (hws : ∀ c ∈ ws, isSpace c = true) : QString.trimmed (l ++ ws) = l := by
  unfold QString.trimmed
  have h1 : (l ++ ws).dropWhile isSpace = l ++ ws := by
    cases l with
    | nil => exact absurd rfl hne
    | cons a t => simp [List.dropWhile_cons, hl a (by simp)]
  rw [h1, List.reverse_append, dropWhile_all _ _ (fun c hc => hws c (List.mem_reverse.1 hc)),
    dropWhile_head _ (by simpa using hne) (fun c hc => hl c (List.mem_reverse.1 hc)),
    List.reverse_reverse]

theorem takeSign_digit (l : List Char) (n : Nat) (h : IsNumeral l n) : takeSign l = (false, l) := by
  obtain ⟨hne, hall, _⟩ := h
  cases l with
  | nil => exact absurd rfl hne
  | cons a t =>
    have ha := hall a (by simp)
    unfold takeSign
    split
    · rename_i heq; injection heq with h1 _; exact absurd h1 ha.2.2.1
    · rename_i heq; injection heq with h1 _; exact absurd h1 ha.2.2.2
    · rfl

theorem parse_digits (neg : Bool) (l : List Char) (n : Nat) (h : IsNumeral l n)
    (hs : takeSign (if neg then '-' :: l else l) = (neg, l)) (ws : List Char)
    (hws : ∀ c ∈ ws, isSpace c = true) :
    parseDecimal ((if neg then '-' :: l else l) ++ ws) = some ⟨neg, n, 0⟩ := by
  obtain ⟨hne, hall, hval⟩ := h
  have htrim : QString.trimmed ((if neg then '-' :: l else l) ++ ws)
      = (if neg then '-' :: l else l) := by
    apply trimmed_token _ _ _ _ hws
    · cases neg <;> simp [hne]
    · intro c hc
      cases neg
      · exact (hall c (by simpa using hc)).2.1
      · simp at hc
        rcases hc with hc | hc
        · subst hc; decide
        · exact (hall c hc).2.1
  have htake : l.takeWhile Char.isDigit = l :=
    List.takeWhile_eq_self_iff.2 (fun c hc => (hall c hc).1)
  have hdrop : l.dropWhile Char.isDigit = [] :=
    List.dropWhile_eq_nil_iff.2 (fun c hc => (hall c hc).1)
  unfold parseDecimal
  simp only [htrim, hs, htake, hdrop, takeFraction, takeExponent, List.append_nil, hval]
  cases l with
  | nil => exact absurd rfl hne
  | cons a t => simp

theorem toString_int_toList (n : Int) :
    (toString n).toList =
      if decide (n < 0) then '-' :: (toString n.natAbs).toList else (toString n.natAbs).toList := by
  cases n with
  | ofNat m =>
    have : ¬ ((Int.ofNat m) < 0) := by simp
    simp [this]
    rfl
  | negSucc m =>
    have : (Int.negSucc m) < 0 := Int.negSucc_lt_zero m
    simp [this]
    show ("-" ++ toString (m + 1)).toList = _
    simp [Int.natAbs]

/-- The conversion of the decimal numeral of an integer, followed by white space only. -/
theorem parseDecimal_toString (n : Int) (ws : List Char) (hws : ∀ c ∈ ws, isSpace c = true) :
    parseDecimal ((toString n).toList ++ ws) = some ⟨decide (n < 0), n.natAbs, 0⟩ := by
  rw [toString_int_toList]
  have hnum := toString_nat_numeral n.natAbs
  apply parse_digits _ _ _ hnum _ ws hws
  by_cases h : n < 0
  · simp only [h, decide_True, if_true, takeSign]
  · simp only [h, decide_False]
    exact takeSign_digit _ _ hnum

theorem toDouble_toString (n : Int) (ws : List Char) (hws : ∀ c ∈ ws, isSpace c = true) :
    QString.toDouble ((toString n).toList ++ ws) = (n : ℚ) := by
  unfold QString.toDouble
  rw [parseDecimal_toString n ws hws]
  simp only [Decimal.toRat, zpow_zero, mul_one]
  by_cases h : n < 0
  · have h1 : (n.natAbs : Int) = -n := by omega
    have h2 : (n.natAbs : ℚ) = -(n : ℚ) := by rw [← Int.cast_natCast, h1, Int.cast_neg]
    simp only [h, decide_True, if_true, h2]
    ring
  · have h1 : (n.natAbs : Int) = n := by omega
    have h2 : (n.natAbs : ℚ) = (n : ℚ) := by rw [← Int.cast_natCast, h1]
    simp only [h, decide_False, h2]
    simp

/-! ## The sensor -/

theorem readSample_of_failure (file : Option QString)
    (h : file = none ∨ ∃ s, file = some s ∧
      (QString.contains s "YES".toList = false ∨ QString.indexOf s "t=".toList ≤ 0)) :
    DS1820.readSample file = -999.9 := by
  rcases h with h | ⟨s, hs, h | h⟩
  · subst h; rfl
  · subst hs; simp only [DS1820.readSample, h, Bool.false_eq_true, if_false]
  · subst hs
    have : ¬ (QString.indexOf s "t=".toList > 0) := not_lt.2 h
    simp only [DS1820.readSample, this, if_false, ite_self]

theorem readSample_of_parse (s : QString) (i : Int) (d : Decimal)
    (hyes : QString.contains s "YES".toList = true)
    (hi : QString.indexOf s "t=".toList = i) (hpos : 0 < i)
    (hd : parseDecimal (QString.mid s (i + 2)) = some d) :
    DS1820.readSample (some s) = d.toRat / 1000 := by
  have hpos2 : i > 0 := hpos
  simp only [DS1820.readSample, hyes, if_true, hi, hpos2, QString.toDouble, hd]

/-- C1: for a band with `tMin < tMax` and a read that yields the sample `s`,
`readTemperature` returns `s` and leaves the alarm flag set with the reason
"Temperature Lower than Minimum" iff `s < tMin`, set with the reason
"Temperature Greater than Maximum" iff `s > tMax`, and cleared with the reason "No Alarm"
iff `tMin ≤ s ≤ tMax` (so at `s = tMin` and at `s = tMax`); `isOnAlarm` afterwards is true
iff `s < tMin` or `s > tMax`. -/
theorem readTemperature_classification (d : DS1820) (file : Option QString) (s : ℚ)
    (hband : d.tMin < d.tMax) (hs : DS1820.readSample file = s) :
    (d.readTemperature file).2 = s ∧
    (((d.readTemperature file).1.bOnAlarm = true ∧
        (d.readTemperature file).1.sAlarmString = "Temperature Lower than Minimum")
      ↔ s < d.tMin) ∧
    (((d.readTemperature file).1.bOnAlarm = true ∧
        (d.readTemperature file).1.sAlarmString = "Temperature Greater than Maximum")
      ↔ s > d.tMax) ∧
    (((d.readTemperature file).1.bOnAlarm = false ∧
        (d.readTemperature file).1.sAlarmString = "No Alarm")
      ↔ (d.tMin ≤ s ∧ s ≤ d.tMax)) ∧
    ((s = d.tMin ∨ s = d.tMax) → (d.readTemperature file).1.sAlarmString = "No Alarm") ∧
    ((d.readTemperature file).1.isOnAlarm = true ↔ (s < d.tMin ∨ s > d.tMax)) := by
  subst hs
  simp only [DS1820.readTemperature, DS1820.classify, DS1820.isOnAlarm]
  by_cases h1 : DS1820.readSample file < d.tMin
  · have h2 : ¬ (DS1820.readSample file > d.tMax) := by
      intro h; exact absurd (lt_trans (lt_trans h1 hband) h) (lt_irrefl _)
    have h3 : ¬ (d.tMin ≤ DS1820.readSample file) := not_le.2 h1
    have h4 : DS1820.readSample file ≠ d.tMin := ne_of_lt h1
    have h5 : DS1820.readSample file ≠ d.tMax := ne_of_lt (lt_trans h1 hband)
    simp [h1, h2, h3, h4, h5]
  · by_cases h2 : DS1820.readSample file > d.tMax
    · have h3 : ¬ (DS1820.readSample file ≤ d.tMax) := not_le.2 h2
      have h4 : DS1820.readSample file ≠ d.tMin := fun h => h3 (h ▸ le_of_lt hband)
      have h5 : DS1820.readSample file ≠ d.tMax := ne_of_gt h2
      simp [h1, h2, h3, h4, h5]
    · simp [h1, h2, not_lt.1 h1, not_lt.1 h2]

theorem readTemperature_classification_witness :
    DS1820.new.tMin < DS1820.new.tMax ∧
    DS1820.readSample (some "YES t=30000".toList) = 30 ∧
    (DS1820.new.readTemperature (some "YES t=30000".toList)).2 = DS1820.new.tMax ∧
    (DS1820.new.readTemperature (some "YES t=30000".toList)).1.sAlarmString = "No Alarm" :=
  have hb : DS1820.new.tMin < DS1820.new.tMax := by norm_num [DS1820.new]
  have hs : DS1820.readSample (some "YES t=30000".toList) = 30 := by
    rw [readSample_of_parse "YES t=30000".toList 4 ⟨false, 30000, 0⟩ (by decide) (by decide)
      (by decide) (by decide)]
    norm_num [Decimal.toRat]
  have h := readTemperature_classification DS1820.new (some "YES t=30000".toList) 30 hb hs
  ⟨hb, hs, by rw [h.1]; norm_num [DS1820.new], h.2.2.2.2.1 (Or.inr (by norm_num [DS1820.new]))⟩


/-- C3 (as stated) fails: a blob that starts with the marker and ends with the token
`t=23625` but holds an earlier `t=`, and a blob in which the token is followed by more text,
both read as `0` and not as `23.625`. -/
theorem readTemperature_token_counterexample :
    ("YES t=1 t=23625".toList = "YES t=1 ".toList ++ "t=".toList ++ (toString (23625 : Int)).toList
      ∧ QString.contains "YES t=1 t=23625".toList "YES".toList = true
      ∧ (DS1820.new.readTemperature (some "YES t=1 t=23625".toList)).2 = 0)
    ∧ ("YES t=23625 C".toList = "YES ".toList ++ "t=".toList ++ (toString (23625 : Int)).toList
          ++ " C".toList
      ∧ QString.contains "YES t=23625 C".toList "YES".toList = true
      ∧ (DS1820.new.readTemperature (some "YES t=23625 C".toList)).2 = 0)
    ∧ (0 : ℚ) ≠ (23625 : Int) / 1000 := by
  refine ⟨⟨by decide, by decide, ?_⟩, ⟨by decide, by decide, ?_⟩, by norm_num⟩
  · have hp : parseDecimal (QString.mid "YES t=1 t=23625".toList (4 + 2)) = none := by decide
    simp only [DS1820.readTemperature, DS1820.readSample,
      show QString.contains "YES t=1 t=23625".toList "YES".toList = true by decide,
      show QString.indexOf "YES t=1 t=23625".toList "t=".toList = 4 by decide,
      QString.toDouble, hp]
    norm_num
  · have hp : parseDecimal (QString.mid "YES t=23625 C".toList (4 + 2)) = none := by decide
    simp only [DS1820.readTemperature, DS1820.readSample,
      show QString.contains "YES t=23625 C".toList "YES".toList = true by decide,
      show QString.indexOf "YES t=23625 C".toList "t=".toList = 4 by decide,
      QString.toDouble, hp]
    norm_num

/-- The sample read from a blob that contains `YES` and whose first `t=` is at an index
greater than `0` and is followed by the numeral of `n` and by white space only. -/
theorem readSample_token (n : Int) (pre ws : QString)
    (hyes : QString.contains (pre ++ "t=".toList ++ (toString n).toList ++ ws) "YES".toList
      = true)
    (hfirst : QString.indexOf (pre ++ "t=".toList ++ (toString n).toList ++ ws) "t=".toList
      = pre.length)
    (hpos : 0 < pre.length) (hws : ∀ c ∈ ws, isSpace c = true) :
    DS1820.readSample (some (pre ++ "t=".toList ++ (toString n).toList ++ ws))
      = (n : ℚ) / 1000 := by
  have hmid : QString.mid (pre ++ "t=".toList ++ (toString n).toList ++ ws)
      ((pre.length : Int) + 2) = (toString n).toList ++ ws := by
    have h2 : ((pre.length : Int) + 2).toNat = pre.length + 2 := by omega
    have h3 : pre ++ "t=".toList ++ (toString n).toList ++ ws
        = (pre ++ "t=".toList) ++ ((toString n).toList ++ ws) := by simp
    rw [QString.mid, h2, h3]
    exact List.drop_left' (by simp)
  have hpos2 : (0 : Int) < pre.length := by exact_mod_cast hpos
  rw [readSample_of_parse _ _ _ hyes hfirst hpos2
    (by rw [hmid]; exact parseDecimal_toString n ws hws)]
  have h := toDouble_toString n ws hws
  unfold QString.toDouble at h
  rw [parseDecimal_toString n ws hws] at h
  exact congrArg (· / 1000) h

/-- Integers below `2 ^ 53` in absolute value are binary64 numbers, and so are their
thousandths when they are multiples of 125 (`125 * j / 1000 = j / 8`). -/
theorem isBinary64_milli (n : Int) (hn : n.natAbs < 2 ^ 53) (h125 : (125 : Int) ∣ n) :
    IsBinary64 (n : ℚ) ∧ IsBinary64 ((n : ℚ) / 1000) := by
  refine ⟨⟨n, 0, hn, by norm_num, by norm_num, by simp⟩, ?_⟩
  obtain ⟨j, hj⟩ := h125
  refine ⟨j, -3, by omega, by norm_num, by norm_num, ?_⟩
  rw [hj]
  push_cast
  rw [zpow_neg]
  norm_num
  ring

/-- C3 (amended): when the blob contains `YES` and the first `t=` of the whole blob is at
an index greater than `0` and is followed by the decimal numeral of the integer `n` and
then by white space only, and when `n` and `n / 1000` are binary64 numbers (as they are for
`|n| < 2 ^ 53` and `125 ∣ n`), `readTemperature` returns exactly `n / 1000`. This is also
what the double arithmetic of the source yields: for every rounding `fl` that leaves
binary64 numbers as they are, the rounded quotient of the rounded numeral,
`fl (fl n / 1000)`, is the value returned. -/
theorem readTemperature_parses_token (d : DS1820) (n : Int) (pre ws : QString)
    (hyes : QString.contains (pre ++ "t=".toList ++ (toString n).toList ++ ws) "YES".toList
      = true)
    (hfirst : QString.indexOf (pre ++ "t=".toList ++ (toString n).toList ++ ws) "t=".toList
      = pre.length)
    (hpos : 0 < pre.length) (hws : ∀ c ∈ ws, isSpace c = true)
    (hn : IsBinary64 (n : ℚ)) (hq : IsBinary64 ((n : ℚ) / 1000)) :
    (d.readTemperature (some (pre ++ "t=".toList ++ (toString n).toList ++ ws))).2
      = (n : ℚ) / 1000
    ∧ ∀ fl : ℚ → ℚ, (∀ q, IsBinary64 q → fl q = q) →
        fl (fl (n : ℚ) / 1000)
          = (d.readTemperature (some (pre ++ "t=".toList ++ (toString n).toList ++ ws))).2 := by
  have h : (d.readTemperature (some (pre ++ "t=".toList ++ (toString n).toList ++ ws))).2
      = (n : ℚ) / 1000 := by
    simp only [DS1820.readTemperature]
    exact readSample_token n pre ws hyes hfirst hpos hws
  refine ⟨h, fun fl hfl => ?_⟩
  rw [h, hfl _ hn, hfl _ hq]

theorem readTemperature_parses_token_witness :
    (QString.contains ("YES ".toList ++ "t=".toList ++ (toString (23625 : Int)).toList
        ++ "\n".toList) "YES".toList = true
      ∧ IsBinary64 ((23625 : Int) : ℚ) ∧ IsBinary64 (((23625 : Int) : ℚ) / 1000)
      ∧ (DS1820.new.readTemperature (some ("YES ".toList ++ "t=".toList
          ++ (toString (23625 : Int)).toList ++ "\n".toList))).2 = 23.625)
    ∧ (IsBinary64 ((-1250 : Int) : ℚ) ∧ IsBinary64 (((-1250 : Int) : ℚ) / 1000)
      ∧ (DS1820.new.readTemperature
          (some ("7f ff 0c 10 1c : crc=1c YES\n7f ff 0c 10 1c ".toList
            ++ "t=".toList ++ (toString (-1250 : Int)).toList ++ "\n".toList))).2 = -1.25) :=
  have b1 := isBinary64_milli 23625 (by decide) (by decide)
  have b2 := isBinary64_milli (-1250) (by decide) (by decide)
  ⟨⟨by decide, b1.1, b1.2, by
      rw [(readTemperature_parses_token DS1820.new 23625 "YES ".toList "\n".toList
        (by decide) (by decide) (by decide) (by decide) b1.1 b1.2).1]
      norm_num⟩,
    ⟨b2.1, b2.2, by
      rw [(readTemperature_parses_token DS1820.new (-1250)
        "7f ff 0c 10 1c : crc=1c YES\n7f ff 0c 10 1c ".toList "\n".toList
        (by decide) (by decide) (by decide) (by decide) b2.1 b2.2).1]
      norm_num⟩⟩


/-- C4 (as stated) fails: a blob whose first line is the marker `NO` and that also holds
`YES` is read as valid, and the temperature of its `t=` token is returned. -/
theorem readTemperature_marker_counterexample :
    QString.contains "NO\nYES t=23625".toList "NO".toList = true
    ∧ (DS1820.new.readTemperature (some "NO\nYES t=23625".toList)).2 = 23.625
    ∧ ¬ ((DS1820.new.readTemperature (some "NO\nYES t=23625".toList)).2 < -300) := by
  have h : (DS1820.new.readTemperature (some "NO\nYES t=23625".toList)).2 = 23.625 := by
    simp only [DS1820.readTemperature]
    rw [readSample_of_parse "NO\nYES t=23625".toList 7 ⟨false, 23625, 0⟩ (by decide) (by decide)
      (by decide) (by decide)]
    norm_num [Decimal.toRat]
  refine ⟨by decide, h, ?_⟩
  rw [h]
  norm_num

/-- C4 (amended): for every blob that does not contain `YES` (whatever `t=` token it
holds, and whether or not it contains `NO`), and for every blob in which `t=` is not found
or is found at index `0`, `readTemperature` returns the value `-999.9`, which is below
`-300`, and never a temperature parsed from the blob. -/
theorem readTemperature_unreadable (d : DS1820) (blob : QString)
    (h : QString.contains blob "YES".toList = false ∨ QString.indexOf blob "t=".toList ≤ 0) :
    (d.readTemperature (some blob)).2 = -999.9 ∧ (d.readTemperature (some blob)).2 < -300 := by
  have hs : DS1820.readSample (some blob) = -999.9 :=
    readSample_of_failure (some blob) (Or.inr ⟨blob, rfl, h⟩)
  simp only [DS1820.readTemperature, hs]
  norm_num

theorem readTemperature_unreadable_witness :
    (QString.contains "1c : crc=1c NO\n1c t=23625\n".toList "NO".toList = true
      ∧ QString.contains "1c : crc=1c NO\n1c t=23625\n".toList "YES".toList = false
      ∧ (DS1820.new.readTemperature (some "1c : crc=1c NO\n1c t=23625\n".toList)).2 = -999.9)
    ∧ (QString.indexOf "1c : crc=1c YES\n1c 23625\n".toList "t=".toList = -1
      ∧ (DS1820.new.readTemperature (some "1c : crc=1c YES\n1c 23625\n".toList)).2 = -999.9) :=
  ⟨⟨by decide, by decide,
      (readTemperature_unreadable DS1820.new "1c : crc=1c NO\n1c t=23625\n".toList
        (Or.inl (by decide))).1⟩,
    ⟨by decide,
      (readTemperature_unreadable DS1820.new "1c : crc=1c YES\n1c 23625\n".toList
        (Or.inr (by decide))).1⟩⟩

/-- Every band that the sensor object can hold is ordered: the constructor sets `(0, 30)`,
`setLimits` only stores an ordered pair, and `readTemperature` does not touch the band. -/
theorem band_ordered :
    DS1820.new.tMin < DS1820.new.tMax
    ∧ (∀ (d : DS1820) (a b : ℚ), d.tMin < d.tMax →
        (d.setLimits a b).tMin < (d.setLimits a b).tMax)
    ∧ (∀ (d : DS1820) (file : Option QString),
        (d.readTemperature file).1.tMin = d.tMin ∧ (d.readTemperature file).1.tMax = d.tMax) := by
  refine ⟨by norm_num [DS1820.new], ?_, ?_⟩
  · intro d a b h
    unfold DS1820.setLimits
    split
    · assumption
    · exact h
  · intro d file
    simp only [DS1820.readTemperature, DS1820.classify]
    split
    · exact ⟨rfl, rfl⟩
    · split <;> exact ⟨rfl, rfl⟩

/-- C5: after `setLimits a b` the band is `(a, b)` when `a < b`; when `a ≥ b` the sensor
object is unchanged, also after any number of repetitions of the call; the alarm flag and
the alarm reason are never changed by `setLimits`. -/
theorem setLimits_band (d : DS1820) (a b : ℚ) :
    (a < b → (d.setLimits a b).tMin = a ∧ (d.setLimits a b).tMax = b)
    ∧ (a ≥ b → (d.setLimits a b).tMin = d.tMin ∧ (d.setLimits a b).tMax = d.tMax)
    ∧ (a ≥ b → ∀ k : Nat, (fun x : DS1820 => x.setLimits a b)^[k] d = d)
    ∧ (d.setLimits a b).bOnAlarm = d.bOnAlarm
    ∧ (d.setLimits a b).sAlarmString = d.sAlarmString := by
  refine ⟨?_, ?_, ?_, ?_, ?_⟩
  · intro h
    simp [DS1820.setLimits, h]
  · intro h
    simp [DS1820.setLimits, not_lt.2 h]
  · intro h k
    have hfix : d.setLimits a b = d := by
      simp [DS1820.setLimits, not_lt.2 h]
    exact Function.iterate_fixed (f := fun x : DS1820 => x.setLimits a b) hfix k
  · unfold DS1820.setLimits
    split <;> rfl
  · unfold DS1820.setLimits
    split <;> rfl

theorem setLimits_band_witness :
    ((DS1820.new.setLimits 0 28).tMin = 0 ∧ (DS1820.new.setLimits 0 28).tMax = 28)
    ∧ ((fun x : DS1820 => x.setLimits 28 0)^[3] (DS1820.new.setLimits 0 28)
        = DS1820.new.setLimits 0 28)
    ∧ ((DS1820.new.setLimits 5 5).tMin = 0 ∧ (DS1820.new.setLimits 5 5).tMax = 30) :=
  ⟨(setLimits_band DS1820.new 0 28).1 (by norm_num),
    (setLimits_band (DS1820.new.setLimits 0 28) 28 0).2.2.1 (by norm_num) 3,
    (setLimits_band DS1820.new 5 5).2.1 (by norm_num)⟩


/-! ## Frame lemmas: what the logging and mailing methods leave unchanged -/
@[simp] theorem logMessage_res (w : MainWindow) (m : LogEntry) :
    (w.logMessage m).res = w.res := by
  unfold MainWindow.logMessage
  split
  · split <;> rfl
  · rfl
@[simp] theorem logMessage_bOnAlarm (w : MainWindow) (m : LogEntry) :
    (w.logMessage m).bOnAlarm = w.bOnAlarm := by
  unfold MainWindow.logMessage
  split
  · split <;> rfl
  · rfl
@[simp] theorem logMessage_bAlarmMessageSent (w : MainWindow) (m : LogEntry) :
    (w.logMessage m).bAlarmMessageSent = w.bAlarmMessageSent := by
  unfold MainWindow.logMessage
  split
  · split <;> rfl
  · rfl
@[simp] theorem logMessage_resendTimer (w : MainWindow) (m : LogEntry) :
    (w.logMessage m).resendTimer = w.resendTimer := by
  unfold MainWindow.logMessage
  split
  · split <;> rfl
  · rfl
@[simp] theorem logMessage_resendInterval (w : MainWindow) (m : LogEntry) :
    (w.logMessage m).resendInterval = w.resendInterval := by
  unfold MainWindow.logMessage
  split
  · split <;> rfl
  · rfl
@[simp] theorem logMessage_sMessageText (w : MainWindow) (m : LogEntry) :
    (w.logMessage m).sMessageText = w.sMessageText := by
  unfold MainWindow.logMessage
  split
  · split <;> rfl
  · rfl
@[simp] theorem logMessage_pTemperatureSensor (w : MainWindow) (m : LogEntry) :
    (w.logMessage m).pTemperatureSensor = w.pTemperatureSensor := by
  unfold MainWindow.logMessage
  split
  · split <;> rfl
  · rfl
@[simp] theorem logMessage_sent (w : MainWindow) (m : LogEntry) :
    (w.logMessage m).sent = w.sent := by
  unfold MainWindow.logMessage
  split
  · split <;> rfl
  · rfl
@[simp] theorem logMessage_rotateLogTime (w : MainWindow) (m : LogEntry) :
    (w.logMessage m).rotateLogTime = w.rotateLogTime := by
  unfold MainWindow.logMessage
  split
  · split <;> rfl
  · rfl
@[simp] theorem logMessage_startTime (w : MainWindow) (m : LogEntry) :
    (w.logMessage m).startTime = w.startTime := by
  unfold MainWindow.logMessage
  split
  · split <;> rfl
  · rfl
@[simp] theorem logMessage_sLogFileName (w : MainWindow) (m : LogEntry) :
    (w.logMessage m).sLogFileName = w.sLogFileName := by
  unfold MainWindow.logMessage
  split
  · split <;> rfl
  · rfl
@[simp] theorem logMessage_dMaxTemperature (w : MainWindow) (m : LogEntry) :
    (w.logMessage m).dMaxTemperature = w.dMaxTemperature := by
  unfold MainWindow.logMessage
  split
  · split <;> rfl
  · rfl
@[simp] theorem logRotate_res (ok : Bool) (w : MainWindow) (n : String) :
    (w.logRotate ok n).1.res = w.res := by
  unfold MainWindow.logRotate
  simp only
  split <;> split <;> simp
@[simp] theorem logRotate_bOnAlarm (ok : Bool) (w : MainWindow) (n : String) :
    (w.logRotate ok n).1.bOnAlarm = w.bOnAlarm := by
  unfold MainWindow.logRotate
  simp only
  split <;> split <;> simp
@[simp] theorem logRotate_bAlarmMessageSent (ok : Bool) (w : MainWindow) (n : String) :
    (w.logRotate ok n).1.bAlarmMessageSent = w.bAlarmMessageSent := by
  unfold MainWindow.logRotate
  simp only
  split <;> split <;> simp
@[simp] theorem logRotate_resendTimer (ok : Bool) (w : MainWindow) (n : String) :
    (w.logRotate ok n).1.resendTimer = w.resendTimer := by
  unfold MainWindow.logRotate
  simp only
  split <;> split <;> simp
@[simp] theorem logRotate_resendInterval (ok : Bool) (w : MainWindow) (n : String) :
    (w.logRotate ok n).1.resendInterval = w.resendInterval := by
  unfold MainWindow.logRotate
  simp only
  split <;> split <;> simp
@[simp] theorem logRotate_sMessageText (ok : Bool) (w : MainWindow) (n : String) :
    (w.logRotate ok n).1.sMessageText = w.sMessageText := by
  unfold MainWindow.logRotate
  simp only
  split <;> split <;> simp
@[simp] theorem logRotate_pTemperatureSensor (ok : Bool) (w : MainWindow) (n : String) :
    (w.logRotate ok n).1.pTemperatureSensor = w.pTemperatureSensor := by
  unfold MainWindow.logRotate
  simp only
  split <;> split <;> simp
@[simp] theorem logRotate_sent (ok : Bool) (w : MainWindow) (n : String) :
    (w.logRotate ok n).1.sent = w.sent := by
  unfold MainWindow.logRotate
  simp only
  split <;> split <;> simp
@[simp] theorem logRotate_rotateLogTime (ok : Bool) (w : MainWindow) (n : String) :
    (w.logRotate ok n).1.rotateLogTime = w.rotateLogTime := by
  unfold MainWindow.logRotate
  simp only
  split <;> split <;> simp
@[simp] theorem logRotate_startTime (ok : Bool) (w : MainWindow) (n : String) :
    (w.logRotate ok n).1.startTime = w.startTime := by
  unfold MainWindow.logRotate
  simp only
  split <;> split <;> simp
@[simp] theorem logRotate_sLogFileName (ok : Bool) (w : MainWindow) (n : String) :
    (w.logRotate ok n).1.sLogFileName = w.sLogFileName := by
  unfold MainWindow.logRotate
  simp only
  split <;> split <;> simp
@[simp] theorem logRotate_dMaxTemperature (ok : Bool) (w : MainWindow) (n : String) :
    (w.logRotate ok n).1.dMaxTemperature = w.dMaxTemperature := by
  unfold MainWindow.logRotate
  simp only
  split <;> split <;> simp
@[simp] theorem sendMail_bOnAlarm (c : Curl) (w : MainWindow) (s m : String) :
    (w.sendMail c s m).1.bOnAlarm = w.bOnAlarm := by
  unfold MainWindow.sendMail
  simp only
  split
  · split <;> simp
  · rfl
@[simp] theorem sendMail_bAlarmMessageSent (c : Curl) (w : MainWindow) (s m : String) :
    (w.sendMail c s m).1.bAlarmMessageSent = w.bAlarmMessageSent := by
  unfold MainWindow.sendMail
  simp only
  split
  · split <;> simp
  · rfl
@[simp] theorem sendMail_resendTimer (c : Curl) (w : MainWindow) (s m : String) :
    (w.sendMail c s m).1.resendTimer = w.resendTimer := by
  unfold MainWindow.sendMail
  simp only
  split
  · split <;> simp
  · rfl
@[simp] theorem sendMail_resendInterval (c : Curl) (w : MainWindow) (s m : String) :
    (w.sendMail c s m).1.resendInterval = w.resendInterval := by
  unfold MainWindow.sendMail
  simp only
  split
  · split <;> simp
  · rfl
@[simp] theorem sendMail_sMessageText (c : Curl) (w : MainWindow) (s m : String) :
    (w.sendMail c s m).1.sMessageText = w.sMessageText := by
  unfold MainWindow.sendMail
  simp only
  split
  · split <;> simp
  · rfl
@[simp] theorem sendMail_pTemperatureSensor (c : Curl) (w : MainWindow) (s m : String) :
    (w.sendMail c s m).1.pTemperatureSensor = w.pTemperatureSensor := by
  unfold MainWindow.sendMail
  simp only
  split
  · split <;> simp
  · rfl
@[simp] theorem sendMail_rotateLogTime (c : Curl) (w : MainWindow) (s m : String) :
    (w.sendMail c s m).1.rotateLogTime = w.rotateLogTime := by
  unfold MainWindow.sendMail
  simp only
  split
  · split <;> simp
  · rfl
@[simp] theorem sendMail_startTime (c : Curl) (w : MainWindow) (s m : String) :
    (w.sendMail c s m).1.startTime = w.startTime := by
  unfold MainWindow.sendMail
  simp only
  split
  · split <;> simp
  · rfl
@[simp] theorem sendMail_sLogFileName (c : Curl) (w : MainWindow) (s m : String) :
    (w.sendMail c s m).1.sLogFileName = w.sLogFileName := by
  unfold MainWindow.sendMail
  simp only
  split
  · split <;> simp
  · rfl
@[simp] theorem sendMail_dMaxTemperature (c : Curl) (w : MainWindow) (s m : String) :
    (w.sendMail c s m).1.dMaxTemperature = w.dMaxTemperature := by
  unfold MainWindow.sendMail
  simp only
  split
  · split <;> simp
  · rfl
@[simp] theorem sendMail_sent (c : Curl) (w : MainWindow) (s m : String) :
    (w.sendMail c s m).1.sent = w.sent ++ [⟨s, m, if c.handle then some c.code else none⟩] := by
  unfold MainWindow.sendMail
  simp only
  split
  · split <;> simp
  · rfl

@[simp] theorem sendMail_res (c : Curl) (w : MainWindow) (s m : String) :
    (w.sendMail c s m).1.res = if c.handle then c.code else w.res := by
  unfold MainWindow.sendMail
  simp only
  split
  · split <;> simp
  · rfl

@[simp] theorem sendMail_result (c : Curl) (w : MainWindow) (s m : String) :
    (w.sendMail c s m).2 = sendMailResult w.res c := by
  unfold MainWindow.sendMail sendMailResult
  simp only
  split
  · split <;> simp
  · rfl

/-! ## One status tick -/

theorem isOnAlarm_iff (d : DS1820) (file : Option QString) :
    (d.readTemperature file).1.isOnAlarm = true ↔
      (DS1820.readSample file < d.tMin ∨ DS1820.readSample file > d.tMax) := by
  simp only [DS1820.readTemperature, DS1820.classify, DS1820.isOnAlarm]
  by_cases h1 : DS1820.readSample file < d.tMin
  · simp [h1]
  · by_cases h2 : DS1820.readSample file > d.tMax
    · simp [h1, h2]
    · simp [h1, h2]

theorem rotateIfDue_frame (e : TickEnv) (w : MainWindow) :
    (w.rotateIfDue e).res = w.res ∧ (w.rotateIfDue e).bOnAlarm = w.bOnAlarm
    ∧ (w.rotateIfDue e).bAlarmMessageSent = w.bAlarmMessageSent
    ∧ (w.rotateIfDue e).resendTimer = w.resendTimer
    ∧ (w.rotateIfDue e).resendInterval = w.resendInterval
    ∧ (w.rotateIfDue e).sMessageText = w.sMessageText
    ∧ (w.rotateIfDue e).pTemperatureSensor = w.pTemperatureSensor
    ∧ (w.rotateIfDue e).sent = w.sent := by
  unfold MainWindow.rotateIfDue
  split
  · simp only [logRotate_res, logRotate_bOnAlarm, logRotate_bAlarmMessageSent,
      logRotate_resendTimer, logRotate_resendInterval, logRotate_sMessageText,
      logRotate_pTemperatureSensor, logRotate_sent, and_self]
  · simp only [and_self]

theorem pollSensor_frame (e : TickEnv) (w : MainWindow) :
    (w.pollSensor e).res = w.res
    ∧ (w.pollSensor e).bAlarmMessageSent = w.bAlarmMessageSent
    ∧ (w.pollSensor e).resendTimer = w.resendTimer
    ∧ (w.pollSensor e).resendInterval = w.resendInterval
    ∧ (w.pollSensor e).sMessageText = w.sMessageText
    ∧ (w.pollSensor e).sent = w.sent
    ∧ (w.pollSensor e).pTemperatureSensor
        = w.pTemperatureSensor.map (fun d => (d.readTemperature e.sensorFile).1)
    ∧ (w.pollSensor e).bOnAlarm
        = (w.bOnAlarm || match w.pTemperatureSensor with
            | some d => (d.readTemperature e.sensorFile).1.isOnAlarm
            | none => false) := by
  unfold MainWindow.pollSensor
  cases hs : w.pTemperatureSensor with
  | none => simp only [hs, Option.map_none', Bool.or_false, and_self]
  | some d =>
    simp only [logMessage_res, logMessage_bAlarmMessageSent, logMessage_resendTimer,
      logMessage_resendInterval, logMessage_sMessageText, logMessage_sent,
      logMessage_pTemperatureSensor, logMessage_bOnAlarm, Option.map_some', and_self]

theorem firstAlert_frame (e : TickEnv) (w : MainWindow) :
    (w.firstAlert e).sMessageText = w.sMessageText
    ∧ (w.firstAlert e).resendInterval = w.resendInterval
    ∧ (w.firstAlert e).pTemperatureSensor = w.pTemperatureSensor
    ∧ (w.firstAlert e).bOnAlarm = w.bOnAlarm := by
  unfold MainWindow.firstAlert
  split
  · simp only
    split <;> simp
  · simp only [and_self]

theorem firstAlert_send (e : TickEnv) (w : MainWindow)
    (h1 : w.bOnAlarm = true) (h2 : w.bAlarmMessageSent = false) :
    (w.firstAlert e).sent = w.sent ++ [alarmMail w e.curl]
    ∧ (w.firstAlert e).res = (if e.curl.handle then e.curl.code else w.res)
    ∧ (sendMailResult w.res e.curl = true →
        (w.firstAlert e).bAlarmMessageSent = true
        ∧ (w.firstAlert e).resendTimer = ⟨true, w.resendInterval⟩)
    ∧ (sendMailResult w.res e.curl = false →
        (w.firstAlert e).bAlarmMessageSent = false
        ∧ (w.firstAlert e).resendTimer = w.resendTimer) := by
  unfold MainWindow.firstAlert
  simp only [h1, h2, Bool.not_false, Bool.and_self, if_true, sendMail_result, logMessage_res]
  cases hr : sendMailResult w.res e.curl
  · simp [alarmMail, h2]
  · simp [alarmMail, QTimer.start]

theorem firstAlert_skip (e : TickEnv) (w : MainWindow)
    (h : w.bOnAlarm = false ∨ w.bAlarmMessageSent = true) : w.firstAlert e = w := by
  unfold MainWindow.firstAlert
  rcases h with h | h <;> simp [h]

theorem statusTick_frame (w : MainWindow) (e : TickEnv) :
    (w.onTimeToUpdateStatus e).sMessageText = w.sMessageText
    ∧ (w.onTimeToUpdateStatus e).resendInterval = w.resendInterval
    ∧ (w.onTimeToUpdateStatus e).pTemperatureSensor
        = w.pTemperatureSensor.map (fun d => (d.readTemperature e.sensorFile).1)
    ∧ (w.onTimeToUpdateStatus e).bOnAlarm
        = (match w.pTemperatureSensor with
            | some d => (d.readTemperature e.sensorFile).1.isOnAlarm
            | none => false) := by
  unfold MainWindow.onTimeToUpdateStatus
  obtain ⟨f1, f2, f3, f4⟩ :=
    firstAlert_frame e (({ w with bOnAlarm := false }.rotateIfDue e).pollSensor e)
  obtain ⟨_, _, _, p4, p5, _, p7, p8⟩ := pollSensor_frame e ({ w with bOnAlarm := false }.rotateIfDue e)
  obtain ⟨_, r2, _, _, r5, r6, r7, _⟩ := rotateIfDue_frame e { w with bOnAlarm := false }
  rw [f1, f2, f3, f4, p4, p5, p7, p8, r2, r5, r6, r7]
  simp

/-- A status tick in a state without alarm message sent, whose sample is outside the band:
`sendMail` is called once with the alarm notification, and the flag and the resend timer
follow the value it returns. -/
theorem statusTick_alarm (w : MainWindow) (e : TickEnv) (d : DS1820)
    (hd : w.pTemperatureSensor = some d) (hidle : w.bAlarmMessageSent = false)
    (hout : DS1820.readSample e.sensorFile < d.tMin ∨ DS1820.readSample e.sensorFile > d.tMax) :
    (w.onTimeToUpdateStatus e).sent = w.sent ++ [alarmMail w e.curl]
    ∧ (w.onTimeToUpdateStatus e).res = (if e.curl.handle then e.curl.code else w.res)
    ∧ (sendMailResult w.res e.curl = true →
        (w.onTimeToUpdateStatus e).bAlarmMessageSent = true
        ∧ (w.onTimeToUpdateStatus e).resendTimer = ⟨true, w.resendInterval⟩)
    ∧ (sendMailResult w.res e.curl = false →
        (w.onTimeToUpdateStatus e).bAlarmMessageSent = false
        ∧ (w.onTimeToUpdateStatus e).resendTimer = w.resendTimer) := by
  have hon := (isOnAlarm_iff d e.sensorFile).2 hout
  unfold MainWindow.onTimeToUpdateStatus
  obtain ⟨p1, p2, p3, p4, p5, p6, _, p8⟩ :=
    pollSensor_frame e ({ w with bOnAlarm := false }.rotateIfDue e)
  obtain ⟨r1, r2, r3, r4, r5, r6, r7, r8⟩ := rotateIfDue_frame e { w with bOnAlarm := false }
  have hb : (({ w with bOnAlarm := false }.rotateIfDue e).pollSensor e).bOnAlarm = true := by
    rw [p8, r7]
    simp [hd, hon]
  have hs : (({ w with bOnAlarm := false }.rotateIfDue e).pollSensor e).bAlarmMessageSent
      = false := by
    rw [p2, r3]; exact hidle
  have h := firstAlert_send e _ hb hs
  rw [p1, p3, p4, p6, r1, r4, r5, r8] at h
  have ha : alarmMail (({ w with bOnAlarm := false }.rotateIfDue e).pollSensor e) e.curl
      = alarmMail w e.curl := by
    simp only [alarmMail, p5, r6]
  rw [ha] at h
  exact h

/-- A status tick that finds the alarm message already sent, or a sample inside the band,
or no sensor, calls `sendMail` not at all and leaves the flag and the resend timer as they
are. -/
theorem statusTick_quiet (w : MainWindow) (e : TickEnv)
    (h : w.bAlarmMessageSent = true ∨ w.pTemperatureSensor = none ∨
      ∃ d, w.pTemperatureSensor = some d ∧
        ¬ (DS1820.readSample e.sensorFile < d.tMin ∨ DS1820.readSample e.sensorFile > d.tMax)) :
    (w.onTimeToUpdateStatus e).sent = w.sent
    ∧ (w.onTimeToUpdateStatus e).res = w.res
    ∧ (w.onTimeToUpdateStatus e).bAlarmMessageSent = w.bAlarmMessageSent
    ∧ (w.onTimeToUpdateStatus e).resendTimer = w.resendTimer := by
  unfold MainWindow.onTimeToUpdateStatus
  obtain ⟨p1, p2, p3, _, _, p6, _, p8⟩ :=
    pollSensor_frame e ({ w with bOnAlarm := false }.rotateIfDue e)
  obtain ⟨r1, r2, r3, r4, _, _, r7, r8⟩ := rotateIfDue_frame e { w with bOnAlarm := false }
  have hskip : (({ w with bOnAlarm := false }.rotateIfDue e).pollSensor e).bOnAlarm = false
      ∨ (({ w with bOnAlarm := false }.rotateIfDue e).pollSensor e).bAlarmMessageSent = true := by
    rcases h with h | h | ⟨d, hd, h⟩
    · right; rw [p2, r3]; exact h
    · left; rw [p8, r7, r2]; simp [h]
    · left
      have hon : (d.readTemperature e.sensorFile).1.isOnAlarm = false := by
        have := (isOnAlarm_iff d e.sensorFile).not.2 h
        simpa using this
      rw [p8, r7, r2]; simp [hd, hon]
  rw [firstAlert_skip e _ hskip, p1, p2, p3, p6, r1, r3, r4, r8]
  simp

/-! ## The alarm state machine -/

/-- C6: in a state with no alarm notification sent, a status tick whose sample is outside
the band and whose call of `sendMail` reports success calls `sendMail` exactly once, with
the subject "Smart Alert System [ALARM!]"; afterwards `bAlarmMessageSent` is true and the
resend timer is running with the resend interval. -/
theorem statusTick_first_alert (w : MainWindow) (e : TickEnv) (d : DS1820)
    (hidle : w.bAlarmMessageSent = false) (hd : w.pTemperatureSensor = some d)
    (hout : DS1820.readSample e.sensorFile < d.tMin ∨ DS1820.readSample e.sensorFile > d.tMax)
    (hok : sendMailResult w.res e.curl = true) :
    (w.onTimeToUpdateStatus e).sent = w.sent ++ [alarmMail w e.curl]
    ∧ (alarmMail w e.curl).subject = "Smart Alert System [ALARM!]"
    ∧ (w.onTimeToUpdateStatus e).bAlarmMessageSent = true
    ∧ (w.onTimeToUpdateStatus e).resendTimer.active = true
    ∧ (w.onTimeToUpdateStatus e).resendTimer.interval = w.resendInterval := by
  obtain ⟨h1, _, h3, _⟩ := statusTick_alarm w e d hd hidle hout
  obtain ⟨h4, h5⟩ := h3 hok
  refine ⟨h1, rfl, h4, ?_, ?_⟩ <;> rw [h5]

/-- A resend tick with `bOnAlarm` false. -/
theorem resendTick_off (w : MainWindow) (c : Curl) (h : w.bOnAlarm = false) :
    (w.onTimeToResendAlarm c).sent = w.sent ++ [ceasedMail c]
    ∧ (w.onTimeToResendAlarm c).resendTimer.active = false
    ∧ (w.onTimeToResendAlarm c).bAlarmMessageSent = false := by
  unfold MainWindow.onTimeToResendAlarm
  simp only [h, Bool.not_false, if_true, sendMail_result, logMessage_res]
  cases sendMailResult w.res c <;> simp [ceasedMail, QTimer.stop]

/-- A resend tick with `bOnAlarm` true. -/
theorem resendTick_on (w : MainWindow) (c : Curl) (h : w.bOnAlarm = true) :
    (w.onTimeToResendAlarm c).sent = w.sent ++ [alarmMail w c]
    ∧ (w.onTimeToResendAlarm c).bAlarmMessageSent = w.bAlarmMessageSent
    ∧ (w.onTimeToResendAlarm c).resendTimer = w.resendTimer := by
  unfold MainWindow.onTimeToResendAlarm
  simp only [h, Bool.not_true, Bool.false_eq_true, if_false, sendMail_result, logMessage_res]
  cases sendMailResult w.res c <;> simp [alarmMail]

/-- C8: a resend tick calls `sendMail` exactly once, whatever the state and whatever
libcurl answers. When `bOnAlarm` is false the call is the "Temperature Alarm Ceased"
notice, the resend timer is stopped and `bAlarmMessageSent` is false afterwards. When
`bOnAlarm` is true the call is the alarm notification, and `bAlarmMessageSent` and the
resend timer are left as they were. -/
theorem resendTick_spec (w : MainWindow) (c : Curl) :
    (w.bOnAlarm = false →
      (w.onTimeToResendAlarm c).sent = w.sent ++ [ceasedMail c]
      ∧ (ceasedMail c).subject = "Smart Alert System [INFO!]"
      ∧ (ceasedMail c).message = "Temperature Alarm Ceased"
      ∧ (w.onTimeToResendAlarm c).resendTimer.active = false
      ∧ (w.onTimeToResendAlarm c).bAlarmMessageSent = false)
    ∧ (w.bOnAlarm = true →
      (w.onTimeToResendAlarm c).sent = w.sent ++ [alarmMail w c]
      ∧ (alarmMail w c).subject = "Smart Alert System [ALARM!]"
      ∧ (w.onTimeToResendAlarm c).bAlarmMessageSent = w.bAlarmMessageSent
      ∧ (w.onTimeToResendAlarm c).resendTimer = w.resendTimer) := by
  constructor
  · intro h
    obtain ⟨h1, h2, h3⟩ := resendTick_off w c h
    exact ⟨h1, rfl, rfl, h2, h3⟩
  · intro h
    obtain ⟨h1, h2, h3⟩ := resendTick_on w c h
    exact ⟨h1, rfl, h2, h3⟩

theorem alarmMail_congr (w v : MainWindow) (c : Curl) (h : v.sMessageText = w.sMessageText) :
    alarmMail v c = alarmMail w c := by
  simp only [alarmMail, h]

theorem statusTicks_append (w : MainWindow) (es : List TickEnv) (e : TickEnv) :
    w.statusTicks (es ++ [e]) = (w.statusTicks es).onTimeToUpdateStatus e := by
  induction es generalizing w with
  | nil => rfl
  | cons a t ih => exact ih (w.onTimeToUpdateStatus a)

/-- A run of status ticks with alarming samples in which every call of `sendMail` reports
failure: each tick calls `sendMail` with the alarm notification, and the state stays
without alarm message sent. -/
theorem failing_run (lo hi : ℚ) : ∀ (envs : List TickEnv) (w : MainWindow),
    w.bAlarmMessageSent = false →
    (∃ d, w.pTemperatureSensor = some d ∧ d.tMin = lo ∧ d.tMax = hi) →
    (∀ e ∈ envs, DS1820.readSample e.sensorFile < lo ∨ DS1820.readSample e.sensorFile > hi) →
    (∀ (k : Nat) (hk : k < envs.length),
      sendMailResult (w.statusTicks (envs.take k)).res (envs.get ⟨k, hk⟩).curl = false) →
    (w.statusTicks envs).sent = w.sent ++ envs.map (fun e => alarmMail w e.curl)
    ∧ (w.statusTicks envs).bAlarmMessageSent = false
    ∧ (w.statusTicks envs).resendTimer = w.resendTimer
    ∧ (w.statusTicks envs).sMessageText = w.sMessageText
    ∧ (w.statusTicks envs).resendInterval = w.resendInterval
    ∧ (∃ d, (w.statusTicks envs).pTemperatureSensor = some d ∧ d.tMin = lo ∧ d.tMax = hi) := by
  intro envs
  induction envs with
  | nil =>
    intro w _ hd _ _
    exact ⟨by simp [MainWindow.statusTicks], by assumption, rfl, rfl, rfl, hd⟩
  | cons e es ih =>
    intro w hidle hd hout hfail
    obtain ⟨d, hd, hlo, hhi⟩ := hd
    have houte : DS1820.readSample e.sensorFile < d.tMin ∨
        DS1820.readSample e.sensorFile > d.tMax := by
      rw [hlo, hhi]; exact hout e (by simp)
    obtain ⟨a1, _, _, a4⟩ := statusTick_alarm w e d hd hidle houte
    obtain ⟨f1, f2, f3, _⟩ := statusTick_frame w e
    have hf0 : sendMailResult w.res e.curl = false := hfail 0 (by simp)
    obtain ⟨a5, a6⟩ := a4 hf0
    have hband := (band_ordered.2.2 d e.sensorFile)
    have hd1 : ∃ d1, (w.onTimeToUpdateStatus e).pTemperatureSensor = some d1 ∧ d1.tMin = lo
        ∧ d1.tMax = hi :=
      ⟨(d.readTemperature e.sensorFile).1, by rw [f3, hd]; rfl, by rw [hband.1, hlo],
        by rw [hband.2, hhi]⟩
    have hfail1 : ∀ (k : Nat) (hk : k < es.length),
        sendMailResult ((w.onTimeToUpdateStatus e).statusTicks (es.take k)).res
          (es.get ⟨k, hk⟩).curl = false := by
      intro k hk
      exact hfail (k + 1) (by simpa using hk)
    obtain ⟨i1, i2, i3, i4, i5, i6⟩ :=
      ih (w.onTimeToUpdateStatus e) a5 hd1 (fun x hx => hout x (by simp [hx])) hfail1
    refine ⟨?_, i2, by rw [← a6]; exact i3, by rw [← f1]; exact i4, by rw [← f2]; exact i5, i6⟩
    show ((w.onTimeToUpdateStatus e).statusTicks es).sent = _
    rw [i1, a1]
    have hm : (fun x : TickEnv => alarmMail (w.onTimeToUpdateStatus e) x.curl)
        = (fun x : TickEnv => alarmMail w x.curl) := by
      funext x; exact alarmMail_congr w _ x.curl f1
    simp [hm]

/-- C7: from a state with no alarm message sent, let status ticks with alarming samples
follow one another, the call of `sendMail` reporting failure on each tick of `envs` (the
first `n - 1` ticks), and let `last` be the `n`-th tick. Then every tick of `envs` and the
tick `last` call `sendMail` with the alarm notification, one call per tick; after `envs`
the flag `bAlarmMessageSent` is still false and the resend timer is as it was; and if the
call of the tick `last` reports success, the flag is true and the resend timer is armed
after it. -/
theorem statusTicks_retry (w : MainWindow) (d : DS1820) (envs : List TickEnv)
    (last : TickEnv) (hidle : w.bAlarmMessageSent = false)
    (hd : w.pTemperatureSensor = some d)
    (hout : ∀ e ∈ envs ++ [last],
      DS1820.readSample e.sensorFile < d.tMin ∨ DS1820.readSample e.sensorFile > d.tMax)
    (hfail : ∀ (k : Nat) (hk : k < envs.length),
      sendMailResult (w.statusTicks (envs.take k)).res (envs.get ⟨k, hk⟩).curl = false) :
    (w.statusTicks envs).sent = w.sent ++ envs.map (fun e => alarmMail w e.curl)
    ∧ (w.statusTicks envs).bAlarmMessageSent = false
    ∧ (w.statusTicks envs).resendTimer = w.resendTimer
    ∧ (w.statusTicks (envs ++ [last])).sent
        = w.sent ++ (envs ++ [last]).map (fun e => alarmMail w e.curl)
    ∧ (sendMailResult (w.statusTicks envs).res last.curl = true →
        (w.statusTicks (envs ++ [last])).bAlarmMessageSent = true
        ∧ (w.statusTicks (envs ++ [last])).resendTimer = ⟨true, w.resendInterval⟩)
    ∧ (sendMailResult (w.statusTicks envs).res last.curl = false →
        (w.statusTicks (envs ++ [last])).bAlarmMessageSent = false
        ∧ (w.statusTicks (envs ++ [last])).resendTimer = w.resendTimer) := by
  obtain ⟨i1, i2, i3, i4, i5, d1, hd1, hlo, hhi⟩ :=
    failing_run d.tMin d.tMax envs w hidle ⟨d, hd, rfl, rfl⟩
      (fun e he => hout e (by simp [he])) hfail
  have houtl : DS1820.readSample last.sensorFile < d1.tMin ∨
      DS1820.readSample last.sensorFile > d1.tMax := by
    rw [hlo, hhi]; exact hout last (by simp)
  obtain ⟨a1, _, a3, a4⟩ := statusTick_alarm (w.statusTicks envs) last d1 hd1 i2 houtl
  rw [statusTicks_append]
  refine ⟨i1, i2, i3, ?_, ?_, ?_⟩
  · rw [a1, i1, alarmMail_congr w _ last.curl i4]
    simp
  · intro h
    obtain ⟨b1, b2⟩ := a3 h
    exact ⟨b1, by rw [b2, i5]⟩
  · intro h
    obtain ⟨b1, b2⟩ := a4 h
    exact ⟨b1, by rw [b2, i3]⟩

theorem statusTicks_sensor (lo hi : ℚ) : ∀ (envs : List TickEnv) (w : MainWindow),
    (∃ d, w.pTemperatureSensor = some d ∧ d.tMin = lo ∧ d.tMax = hi) →
    (∃ d, (w.statusTicks envs).pTemperatureSensor = some d ∧ d.tMin = lo ∧ d.tMax = hi)
    ∧ (w.statusTicks envs).sMessageText = w.sMessageText
    ∧ (w.statusTicks envs).resendInterval = w.resendInterval := by
  intro envs
  induction envs with
  | nil => intro w h; exact ⟨h, rfl, rfl⟩
  | cons e es ih =>
    intro w ⟨d, hd, hlo, hhi⟩
    obtain ⟨f1, f2, f3, _⟩ := statusTick_frame w e
    have hband := (band_ordered.2.2 d e.sensorFile)
    obtain ⟨i1, i2, i3⟩ := ih (w.onTimeToUpdateStatus e)
      ⟨(d.readTemperature e.sensorFile).1, by rw [f3, hd]; rfl, by rw [hband.1, hlo],
        by rw [hband.2, hhi]⟩
    exact ⟨i1, by rw [← f1]; exact i2, by rw [← f2]; exact i3⟩

/-- Once the alarm message has been sent, status ticks send nothing and leave the flag and
the resend timer as they are. -/
theorem quiet_run : ∀ (envs : List TickEnv) (w : MainWindow), w.bAlarmMessageSent = true →
    (w.statusTicks envs).sent = w.sent ∧ (w.statusTicks envs).bAlarmMessageSent = true
    ∧ (w.statusTicks envs).resendTimer = w.resendTimer := by
  intro envs
  induction envs with
  | nil => intro w h; exact ⟨rfl, h, rfl⟩
  | cons e es ih =>
    intro w h
    obtain ⟨q1, _, q3, q4⟩ := statusTick_quiet w e (Or.inl h)
    obtain ⟨i1, i2, i3⟩ := ih (w.onTimeToUpdateStatus e) (by rw [q3]; exact h)
    exact ⟨by rw [← q1]; exact i1, i2, by rw [← q4]; exact i3⟩

theorem sendMailResult_accept (res : Nat) : sendMailResult res ⟨true, 0⟩ = true := by
  simp [sendMailResult]

/-- A run of status ticks from a state with no alarm message sent, every mail being
accepted: one alarm notification if some sample breaches the band, none otherwise. -/
theorem accepted_run (lo hi : ℚ) : ∀ (envs : List TickEnv) (w : MainWindow),
    w.bAlarmMessageSent = false →
    (∃ d, w.pTemperatureSensor = some d ∧ d.tMin = lo ∧ d.tMax = hi) →
    (∀ e ∈ envs, e.curl = ⟨true, 0⟩) →
    ((∃ e ∈ envs, DS1820.readSample e.sensorFile < lo ∨ DS1820.readSample e.sensorFile > hi) →
      (w.statusTicks envs).sent = w.sent ++ [alarmMail w ⟨true, 0⟩]
      ∧ (w.statusTicks envs).bAlarmMessageSent = true
      ∧ (w.statusTicks envs).resendTimer = ⟨true, w.resendInterval⟩)
    ∧ ((¬ ∃ e ∈ envs, DS1820.readSample e.sensorFile < lo ∨ DS1820.readSample e.sensorFile > hi) →
      (w.statusTicks envs).sent = w.sent
      ∧ (w.statusTicks envs).bAlarmMessageSent = false
      ∧ (w.statusTicks envs).resendTimer = w.resendTimer) := by
  intro envs
  induction envs with
  | nil =>
    intro w hidle _ _
    exact ⟨fun ⟨e, he, _⟩ => absurd he (List.not_mem_nil e), fun _ => ⟨rfl, hidle, rfl⟩⟩
  | cons e es ih =>
    intro w hidle ⟨d, hd, hlo, hhi⟩ hacc
    have hce : e.curl = ⟨true, 0⟩ := hacc e (by simp)
    obtain ⟨f1, f2, f3, _⟩ := statusTick_frame w e
    have hband := (band_ordered.2.2 d e.sensorFile)
    have hd1 : ∃ d1, (w.onTimeToUpdateStatus e).pTemperatureSensor = some d1 ∧ d1.tMin = lo
        ∧ d1.tMax = hi :=
      ⟨(d.readTemperature e.sensorFile).1, by rw [f3, hd]; rfl, by rw [hband.1, hlo],
        by rw [hband.2, hhi]⟩
    by_cases hb : DS1820.readSample e.sensorFile < lo ∨ DS1820.readSample e.sensorFile > hi
    · have hb1 : DS1820.readSample e.sensorFile < d.tMin ∨
          DS1820.readSample e.sensorFile > d.tMax := by rw [hlo, hhi]; exact hb
      obtain ⟨a1, _, a3, _⟩ := statusTick_alarm w e d hd hidle hb1
      rw [hce] at a1 a3
      obtain ⟨a5, a6⟩ := a3 (sendMailResult_accept w.res)
      obtain ⟨q1, q2, q3⟩ := quiet_run es (w.onTimeToUpdateStatus e) a5
      refine ⟨fun _ => ⟨?_, q2, ?_⟩, fun hn => absurd ⟨e, by simp, hb⟩ hn⟩
      · show ((w.onTimeToUpdateStatus e).statusTicks es).sent = _
        rw [q1, a1]
      · show ((w.onTimeToUpdateStatus e).statusTicks es).resendTimer = _
        rw [q3, a6]
    · have hb1 : ¬ (DS1820.readSample e.sensorFile < d.tMin ∨
          DS1820.readSample e.sensorFile > d.tMax) := by rw [hlo, hhi]; exact hb
      obtain ⟨q1, _, q3, q4⟩ := statusTick_quiet w e (Or.inr (Or.inr ⟨d, hd, hb1⟩))
      obtain ⟨i1, i2⟩ := ih (w.onTimeToUpdateStatus e) (by rw [q3]; exact hidle) hd1
        (fun x hx => hacc x (by simp [hx]))
      have hiff : (∃ x ∈ e :: es, DS1820.readSample x.sensorFile < lo ∨
            DS1820.readSample x.sensorFile > hi)
          ↔ (∃ x ∈ es, DS1820.readSample x.sensorFile < lo ∨
            DS1820.readSample x.sensorFile > hi) := by
        constructor
        · rintro ⟨x, hx, hbx⟩
          rcases List.mem_cons.1 hx with rfl | hx
          · exact absurd hbx hb
          · exact ⟨x, hx, hbx⟩
        · rintro ⟨x, hx, hbx⟩
          exact ⟨x, by simp [hx], hbx⟩
      rw [hiff]
      refine ⟨fun h => ?_, fun h => ?_⟩
      · obtain ⟨j1, j2, j3⟩ := i1 h
        refine ⟨?_, j2, ?_⟩
        · show ((w.onTimeToUpdateStatus e).statusTicks es).sent = _
          rw [j1, q1, alarmMail_congr w _ _ f1]
        · show ((w.onTimeToUpdateStatus e).statusTicks es).resendTimer = _
          rw [j3, f2]
      · obtain ⟨j1, j2, j3⟩ := i2 h
        refine ⟨?_, j2, ?_⟩
        · show ((w.onTimeToUpdateStatus e).statusTicks es).sent = _
          rw [j1, q1]
        · show ((w.onTimeToUpdateStatus e).statusTicks es).resendTimer = _
          rw [j3, q4]

/-- What a status tick can add to the mails sent, in any state: nothing, or one alarm
notification. -/
theorem statusTick_sent_cases (w : MainWindow) (e : TickEnv) :
    (w.onTimeToUpdateStatus e).sent = w.sent
    ∨ (w.onTimeToUpdateStatus e).sent = w.sent ++ [alarmMail w e.curl] := by
  by_cases hs : w.bAlarmMessageSent = true
  · exact Or.inl (statusTick_quiet w e (Or.inl hs)).1
  · cases hd : w.pTemperatureSensor with
    | none => exact Or.inl (statusTick_quiet w e (Or.inr (Or.inl hd))).1
    | some d =>
      by_cases hb : DS1820.readSample e.sensorFile < d.tMin ∨
          DS1820.readSample e.sensorFile > d.tMax
      · exact Or.inr (statusTick_alarm w e d hd (by simpa using hs) hb).1
      · exact Or.inl (statusTick_quiet w e (Or.inr (Or.inr ⟨d, hd, hb⟩))).1

/-- C9: from a state with no alarm message sent, let the samples of `envs` be delivered
one per status tick, no resend tick in between, every mail being accepted by the gateway.
Then (1) the status ticks together call `sendMail` once, with the alarm notification, if
some sample lies outside the band, and not at all otherwise; (2) that call is made on the
tick of the first such sample; (3) a status tick, in any state, adds nothing but an alarm
notification to the mails sent and never resets `bAlarmMessageSent`; (4) after a breach the
flag is set and the resend timer is armed; (5) when the run breached and its last sample is
inside the band, the resend tick that follows sends exactly one "Temperature Alarm Ceased"
notice. -/
theorem statusTicks_single_alarm (w : MainWindow) (d : DS1820) (envs : List TickEnv)
    (hidle : w.bAlarmMessageSent = false) (hd : w.pTemperatureSensor = some d)
    (hacc : ∀ e ∈ envs, e.curl = ⟨true, 0⟩) :
    (w.statusTicks envs).sent
        = w.sent ++ (if ∃ e ∈ envs, e.breaches d then [alarmMail w ⟨true, 0⟩] else [])
    ∧ (∀ (pre post : List TickEnv) (e : TickEnv), envs = pre ++ e :: post →
        (∀ x ∈ pre, ¬ x.breaches d) → e.breaches d →
        (w.statusTicks pre).sent = w.sent
        ∧ (w.statusTicks (pre ++ [e])).sent = w.sent ++ [alarmMail w ⟨true, 0⟩])
    ∧ (∀ (v : MainWindow) (e : TickEnv),
        ((v.onTimeToUpdateStatus e).sent = v.sent
          ∨ (v.onTimeToUpdateStatus e).sent = v.sent ++ [alarmMail v e.curl])
        ∧ (v.bAlarmMessageSent = true → (v.onTimeToUpdateStatus e).bAlarmMessageSent = true))
    ∧ ((∃ e ∈ envs, e.breaches d) →
        (w.statusTicks envs).bAlarmMessageSent = true
        ∧ (w.statusTicks envs).resendTimer = ⟨true, w.resendInterval⟩)
    ∧ (∀ (c : Curl) (init : List TickEnv) (l : TickEnv), envs = init ++ [l] →
        (∃ e ∈ envs, e.breaches d) → ¬ l.breaches d →
        ((w.statusTicks envs).onTimeToResendAlarm c).sent
          = w.sent ++ [alarmMail w ⟨true, 0⟩, ceasedMail c]) := by
  have hsens : ∃ d1, w.pTemperatureSensor = some d1 ∧ d1.tMin = d.tMin ∧ d1.tMax = d.tMax :=
    ⟨d, hd, rfl, rfl⟩
  obtain ⟨r1, r2⟩ := accepted_run d.tMin d.tMax envs w hidle hsens hacc
  refine ⟨?_, ?_, ?_, ?_, ?_⟩
  · by_cases hb : ∃ e ∈ envs, e.breaches d
    · rw [if_pos hb]; exact (r1 hb).1
    · rw [if_neg hb, List.append_nil]; exact (r2 hb).1
  · intro pre post e henv hpre hbe
    have hacc1 : ∀ x ∈ pre, x.curl = ⟨true, 0⟩ := fun x hx => hacc x (by simp [henv, hx])
    have hacc2 : ∀ x ∈ pre ++ [e], x.curl = ⟨true, 0⟩ := by
      intro x hx
      apply hacc x
      rw [henv]
      rcases List.mem_append.1 hx with h | h
      · simp [h]
      · simp at h; simp [h]
    refine ⟨((accepted_run d.tMin d.tMax pre w hidle hsens hacc1).2 ?_).1,
      ((accepted_run d.tMin d.tMax (pre ++ [e]) w hidle hsens hacc2).1 ⟨e, by simp, hbe⟩).1⟩
    rintro ⟨x, hx, hbx⟩
    exact hpre x hx hbx
  · intro v e
    refine ⟨statusTick_sent_cases v e, fun h => ?_⟩
    rw [(statusTick_quiet v e (Or.inl h)).2.2.1]; exact h
  · intro hb
    exact (r1 hb).2
  · intro c init l henv hb hl
    obtain ⟨⟨d1, hd1, hlo, hhi⟩, _, _⟩ := statusTicks_sensor d.tMin d.tMax init w hsens
    have hoff : (w.statusTicks envs).bOnAlarm = false := by
      rw [henv, statusTicks_append, (statusTick_frame _ l).2.2.2, hd1]
      have hl1 : ¬ (DS1820.readSample l.sensorFile < d1.tMin ∨
          DS1820.readSample l.sensorFile > d1.tMax) := by rw [hlo, hhi]; exact hl
      have := (isOnAlarm_iff d1 l.sensorFile).not.2 hl1
      simpa using this
    rw [(resendTick_off (w.statusTicks envs) c hoff).1, (r1 hb).1]
    simp

/-! ## The state in which the event loop is entered -/

theorem toDouble_default_threshold : QString.toDouble "28.0".toList = 28 := by
  have h : parseDecimal "28.0".toList = some ⟨false, 280, -1⟩ := by decide
  simp only [QString.toDouble, h, Decimal.toRat]
  norm_num

theorem restoreSettings_spec (store : Settings) (v : MainWindow) :
    (v.restoreSettings store).res = v.res
    ∧ (v.restoreSettings store).bOnAlarm = v.bOnAlarm
    ∧ (v.restoreSettings store).bAlarmMessageSent = v.bAlarmMessageSent
    ∧ (v.restoreSettings store).resendTimer = v.resendTimer
    ∧ (v.restoreSettings store).resendInterval = v.resendInterval
    ∧ (v.restoreSettings store).sMessageText = store.messageToSend.getD ""
    ∧ (v.restoreSettings store).pTemperatureSensor = v.pTemperatureSensor
    ∧ (v.restoreSettings store).sent = v.sent
    ∧ (v.restoreSettings store).dMaxTemperature = store.alarmThreshold.getD 28 := by
  unfold MainWindow.restoreSettings
  simp only [toDouble_default_threshold]
  split <;> simp

/-- The state built by the constructor. -/
theorem new_spec (dir : String) (store : Settings) (fs : FileSystem) (ok : Bool) :
    (MainWindow.new dir store fs ok).res = 0
    ∧ (MainWindow.new dir store fs ok).bOnAlarm = false
    ∧ (MainWindow.new dir store fs ok).bAlarmMessageSent = false
    ∧ (MainWindow.new dir store fs ok).resendTimer = QTimer.new
    ∧ (MainWindow.new dir store fs ok).resendInterval = 1800000
    ∧ (MainWindow.new dir store fs ok).sMessageText = store.messageToSend.getD ""
    ∧ (MainWindow.new dir store fs ok).pTemperatureSensor = none
    ∧ (MainWindow.new dir store fs ok).sent = []
    ∧ (MainWindow.new dir store fs ok).dMaxTemperature = store.alarmThreshold.getD 28 := by
  unfold MainWindow.new
  simp only
  generalize (if dir.endsWith "/" = true then dir else dir ++ "/") = dir1
  obtain ⟨r1, r2, r3, r4, r5, r6, r7, r8, r9⟩ := restoreSettings_spec store
    (MainWindow.logRotate ok
      { res := 0, pLogFile := none, sLogFileName := dir1 ++ "smartAlertLog.txt",
        updateTimer := QTimer.new, updateInterval := 60 * 1000,
        resendTimer := QTimer.new, resendInterval := 30 * 60 * 1000,
        startTime := QDateTime.null, rotateLogTime := QDateTime.null,
        gpioHostHandle := -1, gpioSensorPin := 23, bOnAlarm := false,
        bAlarmMessageSent := false, dMaxTemperature := 0, sUsername := "",
        sPassword := "", sMailServer := "", sTo := "", sCc := "",
        sMessageText := "", pTemperatureSensor := none, updateConnected := false,
        fs := fs, syslog := [], sent := [] }
      (dir1 ++ "smartAlertLog.txt")).1
  rw [r1, r2, r3, r4, r5, r6, r7, r8, r9]
  simp

/-- The state in which `exec` enters the event loop. -/
theorem exec_spec (e : ExecEnv) (w : MainWindow) :
    (w.exec e).bOnAlarm = w.bOnAlarm
    ∧ (w.exec e).bAlarmMessageSent = w.bAlarmMessageSent
    ∧ (w.exec e).resendTimer = w.resendTimer
    ∧ (w.exec e).resendInterval = w.resendInterval
    ∧ (w.exec e).sMessageText = w.sMessageText
    ∧ (w.exec e).res = (if e.curl.handle then e.curl.code else w.res)
    ∧ (w.exec e).pTemperatureSensor =
        (if (DS1820.new.isConnected e.devices).2 then
          some (((DS1820.new.isConnected e.devices).1.setLimits 0
            w.dMaxTemperature).readTemperature e.sensorFile).1
        else none) := by
  have g : (w.initGpio e).bOnAlarm = w.bOnAlarm
      ∧ (w.initGpio e).bAlarmMessageSent = w.bAlarmMessageSent
      ∧ (w.initGpio e).resendTimer = w.resendTimer
      ∧ (w.initGpio e).resendInterval = w.resendInterval
      ∧ (w.initGpio e).sMessageText = w.sMessageText
      ∧ (w.initGpio e).res = w.res
      ∧ (w.initGpio e).dMaxTemperature = w.dMaxTemperature := by
    unfold MainWindow.initGpio
    simp only
    split
    · split
      · simp
      · split <;> simp
    · simp
  have s : ∀ v : MainWindow, (v.detectSensor e).bOnAlarm = v.bOnAlarm
      ∧ (v.detectSensor e).bAlarmMessageSent = v.bAlarmMessageSent
      ∧ (v.detectSensor e).resendTimer = v.resendTimer
      ∧ (v.detectSensor e).resendInterval = v.resendInterval
      ∧ (v.detectSensor e).sMessageText = v.sMessageText
      ∧ (v.detectSensor e).res = v.res
      ∧ (v.detectSensor e).pTemperatureSensor =
        (if (DS1820.new.isConnected e.devices).2 then
          some (((DS1820.new.isConnected e.devices).1.setLimits 0
            v.dMaxTemperature).readTemperature e.sensorFile).1
        else none) := by
    intro v
    unfold MainWindow.detectSensor
    simp only
    cases (DS1820.new.isConnected e.devices).2 <;> simp
  have a : ∀ v : MainWindow, (v.announceStart e).bOnAlarm = v.bOnAlarm
      ∧ (v.announceStart e).bAlarmMessageSent = v.bAlarmMessageSent
      ∧ (v.announceStart e).resendTimer = v.resendTimer
      ∧ (v.announceStart e).resendInterval = v.resendInterval
      ∧ (v.announceStart e).sMessageText = v.sMessageText
      ∧ (v.announceStart e).res = (if e.curl.handle then e.curl.code else v.res)
      ∧ (v.announceStart e).pTemperatureSensor = v.pTemperatureSensor := by
    intro v
    unfold MainWindow.announceStart
    simp only
    split <;> simp
  unfold MainWindow.exec
  obtain ⟨g1, g2, g3, g4, g5, g6, g7⟩ := g
  obtain ⟨s1, s2, s3, s4, s5, s6, s7⟩ := s (w.initGpio e)
  obtain ⟨a1, a2, a3, a4, a5, a6, a7⟩ := a ((w.initGpio e).detectSensor e)
  rw [a1, a2, a3, a4, a5, a6, a7, s1, s2, s3, s4, s5, s6, s7, g1, g2, g3, g4, g5, g6, g7]
  simp

theorem exampleDaemon_spec :
    exampleDaemon.bAlarmMessageSent = false
    ∧ exampleDaemon.pTemperatureSensor = some exampleSensor
    ∧ exampleSensor.tMin = 0 ∧ exampleSensor.tMax = 28
    ∧ exampleDaemon.res = 0
    ∧ exampleDaemon.resendTimer = QTimer.new
    ∧ exampleDaemon.resendInterval = 1800000
    ∧ exampleDaemon.bOnAlarm = false := by
  obtain ⟨n1, n2, n3, n4, n5, n6, n7, n8, n9⟩ :=
    new_spec "/home/pi" exampleSettings (fun _ => none) true
  obtain ⟨e1, e2, e3, e4, e5, e6, e7⟩ :=
    exec_spec exampleExecEnv (MainWindow.new "/home/pi" exampleSettings (fun _ => none) true)
  have hc : (DS1820.new.isConnected exampleExecEnv.devices).2 = true := by decide
  have hb := band_ordered.2.2
    ((DS1820.new.isConnected exampleExecEnv.devices).1.setLimits 0 28) exampleExecEnv.sensorFile
  have hl := (setLimits_band (DS1820.new.isConnected exampleExecEnv.devices).1 0 28).1
    (by norm_num)
  unfold exampleDaemon
  refine ⟨by rw [e2, n3], ?_, by unfold exampleSensor; rw [hb.1, hl.1],
    by unfold exampleSensor; rw [hb.2, hl.2], ?_, by rw [e3, n4], by rw [e4, n5],
    by rw [e1, n2]⟩
  · rw [e7, n9, hc]
    rfl
  · rw [e6, n1]
    rfl

theorem exampleTick_sample (m : Int) :
    DS1820.readSample (exampleTick m).sensorFile = (m : ℚ) / 1000 :=
  readSample_token m "crc=1d YES\n1d ".toList "\n".toList (by rfl)
    (by simp [QString.indexOf, QString.indexOfFrom]) (by decide) (by decide)

theorem exampleFailingTick_sample (m : Int) :
    DS1820.readSample (exampleFailingTick m).sensorFile = (m : ℚ) / 1000 :=
  exampleTick_sample m

/-! ## The theorems at the concrete daemon -/

theorem statusTick_first_alert_witness :
    exampleDaemon.bAlarmMessageSent = false
    ∧ exampleDaemon.pTemperatureSensor = some exampleSensor
    ∧ DS1820.readSample (exampleTick 30000).sensorFile > exampleSensor.tMax
    ∧ sendMailResult exampleDaemon.res (exampleTick 30000).curl = true
    ∧ (exampleDaemon.onTimeToUpdateStatus (exampleTick 30000)).sent
        = exampleDaemon.sent ++ [alarmMail exampleDaemon ⟨true, 0⟩]
    ∧ (exampleDaemon.onTimeToUpdateStatus (exampleTick 30000)).bAlarmMessageSent = true
    ∧ (exampleDaemon.onTimeToUpdateStatus (exampleTick 30000)).resendTimer = ⟨true, 1800000⟩ :=
  have hs := exampleDaemon_spec
  have hout : DS1820.readSample (exampleTick 30000).sensorFile > exampleSensor.tMax := by
    rw [exampleTick_sample, hs.2.2.2.1]; norm_num
  have hok : sendMailResult exampleDaemon.res (exampleTick 30000).curl = true :=
    sendMailResult_accept _
  have h := statusTick_first_alert exampleDaemon (exampleTick 30000) exampleSensor hs.1 hs.2.1
    (Or.inr hout) hok
  ⟨hs.1, hs.2.1, hout, hok, h.1, h.2.2.1, by
    have h4 := h.2.2.2.1
    have h5 := h.2.2.2.2
    rw [hs.2.2.2.2.2.2.1] at h5
    cases hr : (exampleDaemon.onTimeToUpdateStatus (exampleTick 30000)).resendTimer with
    | mk a i =>
      rw [hr] at h4 h5
      simp only at h4 h5
      rw [h4, h5]⟩

theorem resendTick_spec_witness :
    exampleDaemon.bOnAlarm = false
    ∧ (exampleDaemon.onTimeToResendAlarm ⟨true, 7⟩).sent
        = exampleDaemon.sent ++ [⟨"Smart Alert System [INFO!]", "Temperature Alarm Ceased", some 7⟩]
    ∧ (exampleDaemon.onTimeToResendAlarm ⟨true, 7⟩).resendTimer.active = false
    ∧ (exampleDaemon.onTimeToResendAlarm ⟨true, 7⟩).bAlarmMessageSent = false :=
  have hb := exampleDaemon_spec.2.2.2.2.2.2.2
  have h := (resendTick_spec exampleDaemon ⟨true, 7⟩).1 hb
  ⟨hb, h.1, h.2.2.2.1, h.2.2.2.2⟩

theorem statusTicks_retry_witness :
    (exampleDaemon.statusTicks [exampleFailingTick 30000, exampleFailingTick 31000]).sent
        = exampleDaemon.sent ++ [alarmMail exampleDaemon ⟨true, 7⟩, alarmMail exampleDaemon ⟨true, 7⟩]
    ∧ (exampleDaemon.statusTicks
        [exampleFailingTick 30000, exampleFailingTick 31000]).bAlarmMessageSent = false
    ∧ (exampleDaemon.statusTicks
        [exampleFailingTick 30000, exampleFailingTick 31000]).resendTimer.active = false
    ∧ (exampleDaemon.statusTicks
        [exampleFailingTick 30000, exampleFailingTick 31000, exampleTick 30500]).sent
        = exampleDaemon.sent ++ [alarmMail exampleDaemon ⟨true, 7⟩,
            alarmMail exampleDaemon ⟨true, 7⟩, alarmMail exampleDaemon ⟨true, 0⟩]
    ∧ (exampleDaemon.statusTicks
        [exampleFailingTick 30000, exampleFailingTick 31000, exampleTick 30500]).bAlarmMessageSent
        = true :=
  have hs := exampleDaemon_spec
  have hout : ∀ e ∈ [exampleFailingTick 30000, exampleFailingTick 31000] ++ [exampleTick 30500],
      DS1820.readSample e.sensorFile < exampleSensor.tMin
        ∨ DS1820.readSample e.sensorFile > exampleSensor.tMax := by
    intro e he
    right
    rw [hs.2.2.2.1]
    simp only [List.cons_append, List.nil_append, List.mem_cons, List.mem_singleton,
      List.not_mem_nil, or_false] at he
    rcases he with rfl | rfl | rfl
    · rw [exampleFailingTick_sample]; norm_num
    · rw [exampleFailingTick_sample]; norm_num
    · rw [exampleTick_sample]; norm_num
  have hfail : ∀ (k : Nat) (hk : k < [exampleFailingTick 30000, exampleFailingTick 31000].length),
      sendMailResult (exampleDaemon.statusTicks
          ([exampleFailingTick 30000, exampleFailingTick 31000].take k)).res
        ([exampleFailingTick 30000, exampleFailingTick 31000].get ⟨k, hk⟩).curl = false := by
    intro k hk
    have hc : ([exampleFailingTick 30000, exampleFailingTick 31000].get ⟨k, hk⟩).curl
        = ⟨true, 7⟩ := by
      rcases k with _ | _ | k
      · rfl
      · rfl
      · exact absurd hk (by simp)
    rw [hc]
    simp [sendMailResult]
  have h := statusTicks_retry exampleDaemon exampleSensor
    [exampleFailingTick 30000, exampleFailingTick 31000] (exampleTick 30500) hs.1 hs.2.1 hout hfail
  ⟨h.1, h.2.1, by rw [h.2.2.1, hs.2.2.2.2.2.1]; rfl, h.2.2.2.1,
    (h.2.2.2.2.1 (sendMailResult_accept _)).1⟩

theorem statusTicks_single_alarm_witness :
    (exampleDaemon.bAlarmMessageSent = false ∧ exampleSensor.tMin = 0 ∧ exampleSensor.tMax = 28)
    ∧ (exampleDaemon.statusTicks [exampleTick 25000]).sent = exampleDaemon.sent
    ∧ (exampleDaemon.statusTicks [exampleTick 25000, exampleTick 30000]).sent
        = exampleDaemon.sent ++ [alarmMail exampleDaemon ⟨true, 0⟩]
    ∧ (exampleDaemon.statusTicks exampleRun).sent
        = exampleDaemon.sent ++ [alarmMail exampleDaemon ⟨true, 0⟩]
    ∧ (exampleDaemon.statusTicks exampleRun).bAlarmMessageSent = true
    ∧ ((exampleDaemon.statusTicks exampleRun).onTimeToResendAlarm ⟨true, 0⟩).sent
        = exampleDaemon.sent ++ [alarmMail exampleDaemon ⟨true, 0⟩, ceasedMail ⟨true, 0⟩] :=
  have hs := exampleDaemon_spec
  have hacc : ∀ e ∈ exampleRun, e.curl = ⟨true, 0⟩ := by
    intro e he
    simp only [exampleRun, List.mem_cons, List.mem_singleton, List.not_mem_nil, or_false] at he
    rcases he with rfl | rfl | rfl | rfl | rfl <;> rfl
  have h25 : ¬ (exampleTick 25000).breaches exampleSensor := by
    unfold TickEnv.breaches
    rw [exampleTick_sample, hs.2.2.1, hs.2.2.2.1]; norm_num
  have h30 : (exampleTick 30000).breaches exampleSensor := by
    unfold TickEnv.breaches
    rw [exampleTick_sample, hs.2.2.1, hs.2.2.2.1]; norm_num
  have hb : ∃ e ∈ exampleRun, e.breaches exampleSensor :=
    ⟨exampleTick 30000, by simp [exampleRun], h30⟩
  have h := statusTicks_single_alarm exampleDaemon exampleSensor exampleRun hs.1 hs.2.1 hacc
  have h2 := h.2.1 [exampleTick 25000] [exampleTick 31000, exampleTick 27000, exampleTick 25000]
    (exampleTick 30000) rfl (by
      intro x hx
      simp only [List.mem_singleton] at hx
      rw [hx]; exact h25) h30
  ⟨⟨hs.1, hs.2.2.1, hs.2.2.2.1⟩, h2.1, h2.2, by rw [h.1, if_pos hb], (h.2.2.2.1 hb).1,
    h.2.2.2.2 ⟨true, 0⟩
      [exampleTick 25000, exampleTick 30000, exampleTick 31000, exampleTick 27000]
      (exampleTick 25000) rfl hb h25⟩

/-! ## A failed read of the sensor -/

/-- The band that `exec` gives the sensor always starts at `0`: `setLimits(0.0, x)` either
stores `(0, x)` or keeps the band `(0, 30)` of the constructor. -/
theorem exec_band_tMin (devices : Option (List (String × Option QString))) (x : ℚ) :
    ((DS1820.new.isConnected devices).1.setLimits 0 x).tMin = 0 := by
  have hscan : ∀ (l : List (String × Option QString)) (d : DS1820), d.tMin = 0 →
      (d.scanDevices l).1.tMin = 0 := by
    intro l
    induction l with
    | nil => intro d h; exact h
    | cons a t ih =>
      intro d h
      obtain ⟨p, c⟩ := a
      unfold DS1820.scanDevices
      cases c with
      | none => exact ih _ h
      | some s =>
        simp only
        split
        · exact h
        · exact ih _ h
  have h0 : (DS1820.new.isConnected devices).1.tMin = 0 := by
    unfold DS1820.isConnected
    cases devices with
    | none => rfl
    | some l => exact hscan l DS1820.new rfl
  unfold DS1820.setLimits
  split
  · rfl
  · exact h0

/-- C2 (as stated) fails: with the band of the constructor a read whose file cannot be
opened sets the alarm flag and the reason "Temperature Lower than Minimum", and the status
tick of the daemon that performs such a read sends an alarm notification. -/
theorem failed_read_counterexample :
    (DS1820.new.readTemperature none).1.bOnAlarm = true
    ∧ (DS1820.new.readTemperature none).1.sAlarmString = "Temperature Lower than Minimum"
    ∧ exampleDaemon.bAlarmMessageSent = false
    ∧ exampleDeadTick.sensorFile = none
    ∧ (exampleDaemon.onTimeToUpdateStatus exampleDeadTick).sent
        = exampleDaemon.sent ++ [⟨"Smart Alert System [ALARM!]", exampleDaemon.sMessageText,
            some 0⟩]
    ∧ (exampleDaemon.onTimeToUpdateStatus exampleDeadTick).bAlarmMessageSent = true := by
  have hlt : DS1820.readSample none < DS1820.new.tMin := by
    rw [readSample_of_failure none (Or.inl rfl)]; norm_num [DS1820.new]
  have hs := exampleDaemon_spec
  have hout : DS1820.readSample exampleDeadTick.sensorFile < exampleSensor.tMin
      ∨ DS1820.readSample exampleDeadTick.sensorFile > exampleSensor.tMax := by
    left
    rw [readSample_of_failure exampleDeadTick.sensorFile (Or.inl rfl), hs.2.2.1]; norm_num
  obtain ⟨a1, _, a3, _⟩ := statusTick_alarm exampleDaemon exampleDeadTick exampleSensor hs.2.1
    hs.1 hout
  refine ⟨?_, ?_, hs.1, rfl, a1, (a3 (sendMailResult_accept _)).1⟩
  · simp only [DS1820.readTemperature, DS1820.classify, hlt, if_true]
  · simp only [DS1820.readTemperature, DS1820.classify, hlt, if_true]

/-- C2 (amended): a failed read (the file cannot be opened, `YES` is absent, or `t=` is
missing or at index `0`) returns `-999.9`, and this value is compared with the band like a
measured temperature: the alarm flag is set with the reason "Temperature Lower than
Minimum" iff `-999.9 < tMin`, the flag is clear iff `tMin ≤ -999.9 ≤ tMax`, and when
`-999.9 < tMin` a status tick that performs the read in a state with no alarm message sent
calls `sendMail` with the alarm notification. -/
theorem failed_read_is_classified (d : DS1820) (file : Option QString)
    (hfail : file = none ∨ ∃ s, file = some s ∧
      (QString.contains s "YES".toList = false ∨ QString.indexOf s "t=".toList ≤ 0)) :
    (d.readTemperature file).2 = -999.9
    ∧ (((d.readTemperature file).1.bOnAlarm = true
        ∧ (d.readTemperature file).1.sAlarmString = "Temperature Lower than Minimum")
      ↔ -999.9 < d.tMin)
    ∧ ((d.readTemperature file).1.bOnAlarm = false ↔ (d.tMin ≤ -999.9 ∧ -999.9 ≤ d.tMax))
    ∧ (-999.9 < d.tMin → ∀ (w : MainWindow) (e : TickEnv), w.pTemperatureSensor = some d →
        e.sensorFile = file → w.bAlarmMessageSent = false →
        (w.onTimeToUpdateStatus e).sent = w.sent ++ [alarmMail w e.curl]) := by
  have hs := readSample_of_failure file hfail
  refine ⟨hs, ?_, ?_, ?_⟩
  · simp only [DS1820.readTemperature, DS1820.classify, hs]
    by_cases h1 : (-999.9 : ℚ) < d.tMin
    · simp [h1]
    · by_cases h2 : (-999.9 : ℚ) > d.tMax
      · simp [h1, h2]
      · simp [h1, h2]
  · simp only [DS1820.readTemperature, DS1820.classify, hs]
    by_cases h1 : (-999.9 : ℚ) < d.tMin
    · simp [h1, not_le.2 h1]
    · by_cases h2 : (-999.9 : ℚ) > d.tMax
      · simp [h1, h2, not_le.2 h2]
      · simp [h1, h2, not_lt.1 h1, not_lt.1 h2]
  · intro hlt w e hd he hidle
    exact (statusTick_alarm w e d hd hidle (Or.inl (by rw [he, hs]; exact hlt))).1

theorem failed_read_is_classified_witness :
    (DS1820.new.readTemperature (some "00 00 00 : crc=00 NO\n".toList)).2 = -999.9
    ∧ (DS1820.new.readTemperature (some "00 00 00 : crc=00 NO\n".toList)).1.bOnAlarm = true
    ∧ (DS1820.new.readTemperature (some "00 00 00 : crc=00 NO\n".toList)).1.sAlarmString
        = "Temperature Lower than Minimum" :=
  have h := failed_read_is_classified DS1820.new (some "00 00 00 : crc=00 NO\n".toList)
    (Or.inr ⟨_, rfl, Or.inl (by decide)⟩)
  have hlt : (-999.9 : ℚ) < DS1820.new.tMin := by norm_num [DS1820.new]
  ⟨h.1, (h.2.1.2 hlt).1, (h.2.1.2 hlt).2⟩

/-! ## Log rotation -/

theorem generation_data (name : String) (i : Nat) :
    (generation name i).data = name.data ++ ('_' :: ((toString i).data ++ ".txt".data)) := by
  simp [generation, String.data_append]

theorem generation_inj (name : String) (i j : Nat)
    (h : generation name i = generation name j) : i = j := by
  have hd := congrArg String.data h
  rw [generation_data, generation_data] at hd
  have h1 := List.append_cancel_left hd
  injection h1 with _ h2
  have h3 : (toString i).toList = (toString j).toList := List.append_cancel_right h2
  have hi := (toString_nat_numeral i).2.2
  have hj := (toString_nat_numeral j).2.2
  rw [h3] at hi
  omega

theorem generation_ne_name (name : String) (i : Nat) : generation name i ≠ name := by
  intro h
  have hd := congrArg (fun s : String => s.data.length) h
  simp only [generation_data, List.length_append, List.length_cons] at hd
  omega

theorem generation_four (name : String) : name ++ "_4.txt" = generation name 4 := by
  apply String.ext
  rw [generation_data, String.data_append]
  rfl

theorem generation_zero (name : String) : name ++ "_0.txt" = generation name 0 := by
  apply String.ext
  rw [generation_data, String.data_append]
  rfl

theorem rename_eq_move (fs : FileSystem) (oldName newName : String)
    (hfree : fs newName = none) : fs.rename oldName newName = fs.move oldName newName := by
  unfold FileSystem.rename FileSystem.move
  cases ho : fs oldName with
  | none =>
    funext p
    simp only [hfree]
    by_cases h1 : p = newName
    · simp [h1, hfree]
    · by_cases h2 : p = oldName
      · simp [h1, h2, ho]
      · simp [h1, h2]
  | some n =>
    funext p
    simp only [hfree, FileSystem.set]

theorem remove_eq_set (fs : FileSystem) (path : String) (h : fs path ≠ some Node.dir) :
    fs.remove path = fs.set path none := by
  unfold FileSystem.remove FileSystem.isFile
  cases hp : fs path with
  | none =>
    funext p
    by_cases h1 : p = path
    · simp [FileSystem.set, h1, hp]
    · simp [FileSystem.set, h1]
  | some n =>
    cases n with
    | file c => simp
    | dir => exact absurd hp h

theorem generation_eq_iff (name : String) (i j : Nat) :
    generation name i = generation name j ↔ i = j :=
  ⟨generation_inj name i j, fun h => by rw [h]⟩

theorem name_ne_generation (name : String) (i : Nat) : name ≠ generation name i :=
  fun h => generation_ne_name name i h.symm

/-- In the chain of moves, the destination of the next move is free. -/
theorem rotationMoves_free (fs : FileSystem) (name : String) (n : Nat) (hn : n ≤ 4) :
    (rotationMoves fs name n) (generation name (4 - n)) = none := by
  interval_cases n <;>
    simp [rotationMoves, FileSystem.set, FileSystem.move, generation_eq_iff, name_ne_generation,
      generation_ne_name]

/-- The removal of generation 4 and the renames of the loop of `logRotate`, when generation
4 is not a directory: each step is a move to a free name. -/
theorem rotationPrefix_eq_moves (fs : FileSystem) (name : String)
    (hfile : fs (generation name 4) ≠ some Node.dir) :
    ∀ n, n ≤ 4 → rotationPrefix fs name n = rotationMoves fs name n := by
  intro n
  induction n with
  | zero =>
    intro _
    show fs.remove (name ++ "_4.txt") = _
    rw [generation_four]
    exact remove_eq_set _ _ hfile
  | succ m ih =>
    intro hm
    show (rotationPrefix fs name m).rename _ _ = (rotationMoves fs name m).move _ _
    rw [ih (by omega)]
    exact rename_eq_move _ _ _ (rotationMoves_free fs name m (by omega))

theorem shiftGenerations_eq_prefix (fs : FileSystem) (name : String) :
    shiftGenerations name 4 (fs.remove (name ++ "_4.txt")) = rotationPrefix fs name 4 := rfl

/-- The state that `logRotate` leaves when the current log is a regular file, the oldest
generation is not a directory and the new log can be created. -/
theorem logRotate_fs (w : MainWindow) (name : String) (content : List LogEntry)
    (hlog : w.fs name = some (Node.file content))
    (hfile : w.fs (generation name 4) ≠ some Node.dir) :
    (w.logRotate true name).2 = true
    ∧ (w.logRotate true name).1.pLogFile = some ⟨name, true⟩
    ∧ (w.logRotate true name).1.fs =
        ((rotationMoves w.fs name 4).move name (generation name 0)).set name
          (some (Node.file [])) := by
  have hisFile : w.fs.isFile name = true := by simp [FileSystem.isFile, hlog]
  have h4 := rotationPrefix_eq_moves w.fs name hfile 4 (le_refl 4)
  have hfree := rotationMoves_free w.fs name 4 (le_refl 4)
  have hlast : (rotationPrefix w.fs name 4).rename name (name ++ "_0.txt")
      = (rotationMoves w.fs name 4).move name (generation name 0) := by
    rw [h4, generation_zero]
    exact rename_eq_move _ _ _ hfree
  have hopen : ((rotationMoves w.fs name 4).move name (generation name 0)) name = none := by
    simp [rotationMoves, FileSystem.set, FileSystem.move, generation_eq_iff, name_ne_generation,
      generation_ne_name]
  unfold MainWindow.logRotate
  simp only [hisFile, if_true, shiftGenerations_eq_prefix, hlast, hopen, Bool.true_and]
  exact ⟨rfl, rfl, rfl⟩

/-- C10: let the current log be a regular file, the oldest generation `<log>_4.txt` not be
a directory, and the new log be creatable. After `logRotate`: the call returns `true`;
generation `k + 1` holds what generation `k` held before (nothing when it held nothing), for
`k = 0..3`; generation 0 holds the previous current log; a generation beyond 4 that did not
exist still does not exist; the current log is an empty file, open for writing; every path
other than the log and the generations 0..4 holds what it held. Moreover, in the file
system reached after the removal of generation 4 and `n` renames of the loop (`n = 0..4`),
the destination of the next rename, generation `4 - n`, is free: the old generation 4 is
gone, and each rename of the sequence `3→4, 2→3, 1→2, 0→1, log→0` finds its destination
free. -/
theorem logRotate_generations (w : MainWindow) (name : String) (content : List LogEntry)
    (hlog : w.fs name = some (Node.file content))
    (hfile : w.fs (generation name 4) ≠ some Node.dir) :
    (w.logRotate true name).2 = true
    ∧ (∀ k, k < 4 →
        (w.logRotate true name).1.fs (generation name (k + 1)) = w.fs (generation name k))
    ∧ (w.logRotate true name).1.fs (generation name 0) = some (Node.file content)
    ∧ (∀ k, 5 ≤ k → w.fs (generation name k) = none →
        (w.logRotate true name).1.fs (generation name k) = none)
    ∧ (w.logRotate true name).1.fs name = some (Node.file [])
    ∧ (w.logRotate true name).1.pLogFile = some ⟨name, true⟩
    ∧ (∀ p, p ≠ name → (∀ k, k ≤ 4 → p ≠ generation name k) →
        (w.logRotate true name).1.fs p = w.fs p)
    ∧ (∀ n, n ≤ 4 → (rotationPrefix w.fs name n) (generation name (4 - n)) = none)
    ∧ shiftGenerations name 4 (w.fs.remove (name ++ "_4.txt")) = rotationPrefix w.fs name 4 := by
  obtain ⟨l1, l2, l3⟩ := logRotate_fs w name content hlog hfile
  refine ⟨l1, ?_, ?_, ?_, ?_, l2, ?_, ?_, rfl⟩
  · intro k hk
    rw [l3]
    interval_cases k <;>
    simp [rotationMoves, FileSystem.set, FileSystem.move, generation_eq_iff, name_ne_generation,
      generation_ne_name]
  · rw [l3]
    simp [rotationMoves, FileSystem.set, FileSystem.move, generation_eq_iff, name_ne_generation,
      generation_ne_name]
    exact hlog
  · intro k hk hnone
    rw [l3]
    have h0 : k ≠ 0 := by omega
    have h1 : k ≠ 1 := by omega
    have h2 : k ≠ 2 := by omega
    have h3 : k ≠ 3 := by omega
    have h4 : k ≠ 4 := by omega
    simp [rotationMoves, FileSystem.set, FileSystem.move, generation_eq_iff,
      name_ne_generation, generation_ne_name, h0, h1, h2, h3, h4, hnone]
  · rw [l3]
    simp [FileSystem.set]
  · intro p hp hk
    rw [l3]
    simp [rotationMoves, FileSystem.set, FileSystem.move, hp, hk 0 (by omega),
      hk 1 (by omega), hk 2 (by omega), hk 3 (by omega), hk 4 (by omega)]
  · intro n hn
    rw [rotationPrefix_eq_moves w.fs name hfile n hn]
    exact rotationMoves_free w.fs name n hn

theorem logRotate_generations_witness :
    exampleFs "/home/pi/smartAlertLog.txt" = some (Node.file [LogEntry.text "current"])
    ∧ exampleFs (generation "/home/pi/smartAlertLog.txt" 4)
        = some (Node.file [LogEntry.text "oldest"])
    ∧ (({ exampleDaemon with fs := exampleFs }.logRotate true "/home/pi/smartAlertLog.txt").1.fs
        "/home/pi/smartAlertLog.txt" = some (Node.file []))
    ∧ (({ exampleDaemon with fs := exampleFs }.logRotate true "/home/pi/smartAlertLog.txt").1.fs
        (generation "/home/pi/smartAlertLog.txt" 0) = some (Node.file [LogEntry.text "current"]))
    ∧ (({ exampleDaemon with fs := exampleFs }.logRotate true "/home/pi/smartAlertLog.txt").1.fs
        (generation "/home/pi/smartAlertLog.txt" 1) = some (Node.file [LogEntry.text "newest"]))
    ∧ (({ exampleDaemon with fs := exampleFs }.logRotate true "/home/pi/smartAlertLog.txt").1.fs
        (generation "/home/pi/smartAlertLog.txt" 4) = none) :=
  have hlog : exampleFs "/home/pi/smartAlertLog.txt"
      = some (Node.file [LogEntry.text "current"]) := by
    simp [exampleFs]
  have h0 : exampleFs (generation "/home/pi/smartAlertLog.txt" 0)
      = some (Node.file [LogEntry.text "newest"]) := by
    rw [← generation_zero]; simp [exampleFs]
  have h3 : exampleFs (generation "/home/pi/smartAlertLog.txt" 3) = none := by
    have e : generation "/home/pi/smartAlertLog.txt" 3 = "/home/pi/smartAlertLog.txt_3.txt" := by
      apply String.ext; rw [generation_data]; rfl
    rw [e]; simp [exampleFs]
  have h4 : exampleFs (generation "/home/pi/smartAlertLog.txt" 4)
      = some (Node.file [LogEntry.text "oldest"]) := by
    rw [← generation_four]; simp [exampleFs]
  have h := logRotate_generations { exampleDaemon with fs := exampleFs }
    "/home/pi/smartAlertLog.txt" [LogEntry.text "current"] hlog (by
      show exampleFs (generation "/home/pi/smartAlertLog.txt" 4) ≠ some Node.dir
      rw [h4]; simp)
  ⟨hlog, h4, h.2.2.2.2.1, h.2.2.1, by rw [h.2.1 0 (by norm_num)]; exact h0,
    by rw [h.2.1 3 (by norm_num)]; exact h3⟩

/-! ## The value returned by `sendMail` -/

/-- C11: the code at the failing input. With a handle, `sendMail` returns `true` exactly
when the transfer of that call returned `CURLE_OK`. Without a handle no transfer is made
(the call is recorded with no transfer result), `res` keeps the value left by an earlier
call or by the constructor, and `sendMail` returns `true` exactly when that old value is
`CURLE_OK`: it returns `true` on the very first call of a freshly constructed daemon and on
a call that follows a successful one, and a status tick with an alarming sample then sets
`bAlarmMessageSent` and arms the resend timer although nothing was transferred. -/
theorem sendMail_stale_result :
    (∀ (w : MainWindow) (code : Nat) (s m : String),
      (w.sendMail ⟨true, code⟩ s m).2 = decide (code = 0)
      ∧ (w.sendMail ⟨true, code⟩ s m).1.sent = w.sent ++ [⟨s, m, some code⟩])
    ∧ (∀ (w : MainWindow) (code : Nat) (s m : String),
      (w.sendMail ⟨false, code⟩ s m).2 = decide (w.res = 0)
      ∧ (w.sendMail ⟨false, code⟩ s m).1.res = w.res
      ∧ (w.sendMail ⟨false, code⟩ s m).1.sent = w.sent ++ [⟨s, m, none⟩])
    ∧ (∀ (dir : String) (store : Settings) (fs : FileSystem) (ok : Bool) (s m : String),
      ((MainWindow.new dir store fs ok).sendMail ⟨false, 0⟩ s m).2 = true)
    ∧ (∀ (w : MainWindow) (s1 m1 s2 m2 : String),
      ((w.sendMail ⟨true, 0⟩ s1 m1).1.sendMail ⟨false, 0⟩ s2 m2).2 = true)
    ∧ ((exampleDaemon.onTimeToUpdateStatus (exampleNoHandleTick 30000)).sent
          = exampleDaemon.sent ++ [⟨"Smart Alert System [ALARM!]", exampleDaemon.sMessageText,
              none⟩]
      ∧ (exampleDaemon.onTimeToUpdateStatus (exampleNoHandleTick 30000)).bAlarmMessageSent
          = true
      ∧ (exampleDaemon.onTimeToUpdateStatus (exampleNoHandleTick 30000)).resendTimer.active
          = true) := by
  refine ⟨?_, ?_, ?_, ?_, ?_⟩
  · intro w code s m
    refine ⟨?_, by simp⟩
    rw [sendMail_result]
    by_cases h : code = 0 <;> simp [sendMailResult, h]
  · intro w code s m
    refine ⟨?_, by simp, by simp⟩
    rw [sendMail_result]
    by_cases h : w.res = 0 <;> simp [sendMailResult, h]
  · intro dir store fs ok s m
    rw [sendMail_result, (new_spec dir store fs ok).1]
    rfl
  · intro w s1 m1 s2 m2
    rw [sendMail_result, sendMail_res]
    rfl
  · have hs := exampleDaemon_spec
    have hout : DS1820.readSample (exampleNoHandleTick 30000).sensorFile < exampleSensor.tMin
        ∨ DS1820.readSample (exampleNoHandleTick 30000).sensorFile > exampleSensor.tMax := by
      right
      have h : DS1820.readSample (exampleNoHandleTick 30000).sensorFile = (30000 : Int) / 1000 :=
        exampleTick_sample 30000
      rw [h, hs.2.2.2.1]; norm_num
    obtain ⟨a1, _, a3, _⟩ := statusTick_alarm exampleDaemon (exampleNoHandleTick 30000)
      exampleSensor hs.2.1 hs.1 hout
    have hok : sendMailResult exampleDaemon.res (exampleNoHandleTick 30000).curl = true := by
      rw [hs.2.2.2.2.1]; rfl
    obtain ⟨b1, b2⟩ := a3 hok
    exact ⟨a1, b1, by rw [b2]⟩

end SmartAlert
